import Mathlib

/-!
Verification development for the PIK (Persistent Identity Kernel) backend.

The definitions below are a shallow embedding of the TypeScript services
under `src/backend/src` (and the unnamed source parts): each Lean function
mirrors one service method, with the Prisma store modelled as explicit
record-of-lists state that is threaded through every operation.  JavaScript
numbers are modelled as the exact-fraction type `Q` defined below, XP
totals as `Int`, and fallible endpoints return `Except ApiError`.
Timestamps that no claim inspects are omitted from the records; the opaque
JSON payload of ledger rows is likewise omitted (claims only inspect the
event type, root and source columns).
-/

namespace PIK

/-- Error taxonomy of the NestJS exceptions used by the services
(`NotFoundException`, `ForbiddenException`, `BadRequestException`,
`UnauthorizedException`, `ConflictException`); `internalError` stands for
any other thrown exception (HTTP 500). -/
inductive ApiError
  | notFound (msg : String)
  | forbidden (msg : String)
  | badRequest (msg : String)
  | unauthorized (msg : String)
  | conflict (msg : String)
  | internalError
  deriving Repr, DecidableEq

/-- HTTP status code of each error kind, per the Nest exception classes. -/
def ApiError.status : ApiError → Nat
  | .notFound _ => 404
  | .forbidden _ => 403
  | .badRequest _ => 400
  | .unauthorized _ => 401
  | .conflict _ => 409
  | .internalError => 500

/-- Model of a JavaScript number as an exact fraction: numerator and a
(kept positive) denominator, with no gcd normalization so that every
operation reduces inside the Lean kernel.  All numeric constants appearing
in the claims are exactly representable as IEEE doubles and small enough
that the double computations of the code agree with exact fraction
arithmetic on the claimed values (checked numerically for every concrete
input used below). -/
structure Q where
  num : Int
  den : Int
  deriving Repr, DecidableEq

/-- Multiplication of fractions. -/
def Q.mul (a b : Q) : Q := ⟨a.num * b.num, a.den * b.den⟩

/-- Addition of fractions. -/
def Q.add (a b : Q) : Q := ⟨a.num * b.den + b.num * a.den, a.den * b.den⟩

/-- Subtraction of fractions. -/
def Q.sub (a b : Q) : Q := ⟨a.num * b.den - b.num * a.den, a.den * b.den⟩

/-- Division of fractions, keeping the denominator positive. -/
def Q.div (a b : Q) : Q :=
  if b.num < 0 then ⟨-(a.num * b.den), a.den * (-b.num)⟩
  else ⟨a.num * b.den, a.den * b.num⟩

/-- Embedding of an integer. -/
def Q.ofInt (n : Int) : Q := ⟨n, 1⟩

/-- The `Math.floor` of a fraction (floor division, rounding toward
negative infinity, as JavaScript does). -/
def Q.floor (q : Q) : Int := Int.fdiv q.num q.den

/-- Fraction comparison (cross-multiplied; denominators are positive). -/
def Q.le (a b : Q) : Prop := a.num * b.den ≤ b.num * a.den

/-- Strict fraction comparison. -/
def Q.lt (a b : Q) : Prop := a.num * b.den < b.num * a.den

/-- Natural-exponent power. -/
def Q.pow (q : Q) : Nat → Q
  | 0 => ⟨1, 1⟩
  | n + 1 => (q.pow n).mul q

instance : Mul Q := ⟨Q.mul⟩

instance : Add Q := ⟨Q.add⟩

instance : Sub Q := ⟨Q.sub⟩

instance : Div Q := ⟨Q.div⟩

instance : Pow Q Nat := ⟨Q.pow⟩

instance : LE Q := ⟨Q.le⟩

instance : LT Q := ⟨Q.lt⟩

instance (n : Nat) : OfNat Q n := ⟨⟨n, 1⟩⟩

instance (a b : Q) : Decidable (a ≤ b) :=
  inferInstanceAs (Decidable (a.num * b.den ≤ b.num * a.den))

instance (a b : Q) : Decidable (a < b) :=
  inferInstanceAs (Decidable (a.num * b.den < b.num * a.den))

/-- Digit characters consumed by JavaScript `parseInt` in base 10. -/
def digitVal (c : Char) : Option Nat :=
  if c.isDigit then some (c.toNat - 48) else none

/-- Accumulate the leading decimal-digit prefix of a character list. -/
def takeDigits : List Char → Nat → Option Nat
  | [], acc => some acc
  | c :: cs, acc =>
    match digitVal c with
    | some d => takeDigits cs (acc * 10 + d)
    | none => some acc

/-- Leading digits of a character list, or `none` when there are none
(JavaScript `parseInt` returns NaN in that case). -/
def digitsPrefix : List Char → Option Nat
  | [] => none
  | c :: cs =>
    match digitVal c with
    | some d => takeDigits cs d
    | none => none

/-- JavaScript `parseInt(s)` in base 10: skip leading whitespace, read an
optional sign and then the longest digit prefix; no digits means NaN,
modelled as `none`. -/
def jsParseInt (s : String) : Option Int :=
  let chars := s.toList.dropWhile (fun c => c = ' ' ∨ c = '\t' ∨ c = '\n')
  match chars with
  | '-' :: rest => (digitsPrefix rest).map (fun n => -(n : Int))
  | '+' :: rest => (digitsPrefix rest).map (fun n => (n : Int))
  | rest => (digitsPrefix rest).map (fun n => (n : Int))

/-- JavaScript `parseInt(s) || 0`: NaN collapses to 0 (and so does a parsed
0, which is the same value). -/
def jsParseIntD0 (s : String) : Int :=
  (jsParseInt s).getD 0

/-- Row of `root_identities`: the canonical user.  Mirrors the Prisma model
fields the claims touch (`fate_xp`, `fate_level`, `status`). -/
structure RootIdentity where
  id : String
  heroName : String
  fateXp : Int
  fateLevel : Nat
  status : String
  deriving Repr, DecidableEq

/-- Row of `source_links`: the consent receipt for one (root, source) pair. -/
structure SourceLink where
  id : String
  rootId : String
  sourceId : String
  scope : String
  status : String
  deriving Repr, DecidableEq

/-- Row of `titles`: the reference catalog of badges. -/
structure Title where
  id : String
  displayName : String
  deriving Repr, DecidableEq

/-- Row of `user_titles`: the unique (root, title) join. -/
structure UserTitle where
  rootId : String
  titleId : String
  sourceId : Option String
  deriving Repr, DecidableEq

/-- Row of `fate_markers`. -/
structure FateMarker where
  rootId : String
  marker : String
  sourceId : Option String
  deriving Repr, DecidableEq

/-- Row of `identity_events` (the append-only ledger).  The opaque JSON
payload and changes columns are omitted: no claim inspects them. -/
structure IdentityEvent where
  id : Nat
  rootId : String
  eventType : String
  sourceId : Option String
  deriving Repr, DecidableEq

/-- Row of `fate_caches`: a sealed or opened reward container. -/
structure FateCache where
  id : String
  rootId : String
  cacheType : String
  rarity : String
  sourceId : Option String
  trigger : String
  status : String
  rewardType : Option String
  rewardValue : Option String
  rewardName : Option String
  rewardRarity : Option String
  deriving Repr, DecidableEq

/-- Row of `loot_table`: one weighted reward pool entry. -/
structure LootEntry where
  id : Nat
  cacheType : String
  rewardType : String
  rewardValue : String
  displayName : String
  weight : Int
  rarityTier : String
  minLevel : Nat
  deriving Repr, DecidableEq

/-- Row of `auth_keys`: a stored WebAuthn credential. -/
structure AuthKey where
  id : String
  rootId : String
  credentialId : String
  counter : Nat
  status : String
  deriving Repr, DecidableEq

/-- Row of `webauthn_challenges`: a one-shot ceremony nonce. -/
structure Challenge where
  id : Nat
  challenge : String
  challengeType : String
  rootId : Option String
  expiresAt : Nat
  deriving Repr, DecidableEq

/-- Row of `sources`: an upstream system with a hashed API key. -/
structure SourceRec where
  id : String
  name : String
  status : String
  apiKeyHash : String
  deriving Repr, DecidableEq

/-- Row of `session_tokens` (the token is stored hashed in the code; the
hash function is irrelevant to every claim, so the stored value is kept
abstract as the string the caller provides). -/
structure SessionTokenRec where
  tokenHash : String
  rootId : String
  expiresAt : Nat
  deriving Repr, DecidableEq

/-- Parsed progression configuration, as produced by
`IdentityService.getProgressionConfig` from the `config` rows. -/
structure ProgConfig where
  xpBaseThreshold : Q
  xpLevelMultiplier : Q
  xpPerSessionNormal : Q
  xpPerSessionHard : Q
  xpNodeCompletion : Q
  xpBossTierPct : Q
  eventXpMultiplier : Q
  deriving Repr, DecidableEq

/-- Seeded defaults (`part_021` seed data, identical to the fallback
defaults in `getProgressionConfig`): 200, 1.2, 100, 150, 15, 0.5, 1.0. -/
def defaultConfig : ProgConfig :=
  { xpBaseThreshold := 200
    xpLevelMultiplier := ⟨6, 5⟩
    xpPerSessionNormal := 100
    xpPerSessionHard := 150
    xpNodeCompletion := 15
    xpBossTierPct := ⟨1, 2⟩
    eventXpMultiplier := 1 }

/-- Whole-database state threaded through every operation. -/
structure World where
  users : List RootIdentity
  links : List SourceLink
  titles : List Title
  userTitles : List UserTitle
  fateMarkers : List FateMarker
  events : List IdentityEvent
  caches : List FateCache
  lootTable : List LootEntry
  authKeys : List AuthKey
  challenges : List Challenge
  sources : List SourceRec
  sessionTokens : List SessionTokenRec
  config : ProgConfig
  nextId : Nat
  now : Nat
  deriving Repr, DecidableEq

/-- One primitive Prisma write executed by the ingest pipeline. -/
inductive DbWrite
  | updateRootXp (rootId : String) (fateXp : Int) (fateLevel : Nat)
  | insertUserTitle (rootId titleId : String) (sourceId : Option String)
  | insertFateMarker (rootId marker : String) (sourceId : Option String)
  | insertFateCache (cacheId rootId cacheType rarity trigger : String)
  | insertEvent (e : IdentityEvent)
  deriving Repr, DecidableEq

/-- Transaction trace: each inner list is the set of writes committed
atomically together.  A bare `await this.prisma.x(...)` call contributes a
singleton unit; a `this.prisma.$transaction(...)` block contributes one
unit holding all its writes. -/
abbrev Trace := List (List DbWrite)

/-- Whether a primitive write is a ledger append (`identity_events` row). -/
def DbWrite.isLedgerAppend : DbWrite → Bool
  | .insertEvent _ => true
  | _ => false

/-- Whether a primitive write mutates non-ledger state. -/
def DbWrite.isStateMutation : DbWrite → Bool
  | .insertEvent _ => false
  | _ => true

/-- Event type of a ledger-append write, if it is one. -/
def DbWrite.eventTypeOf : DbWrite → Option String
  | .insertEvent e => some e.eventType
  | _ => none

/-- Number of ledger rows of a given event type appended across a trace. -/
def Trace.eventCount (tr : Trace) (ty : String) : Nat :=
  (tr.flatten.filter (fun wr => wr.eventTypeOf = some ty)).length

/-- Prisma `rootIdentity.findUnique({where:{id}})`. -/
def World.findUser (w : World) (rootId : String) : Option RootIdentity :=
  w.users.find? (fun u => u.id = rootId)

/-- Prisma `rootIdentity.update({where:{id}, data})`, modelled as mapping
the update over the row with the matching unique id. -/
def World.updateUser (w : World) (rootId : String)
    (f : RootIdentity → RootIdentity) : World :=
  { w with users := w.users.map (fun u => if u.id = rootId then f u else u) }

/-- EventsService.log — creates one `identity_events` row (the SSE emit has
no effect on stored state).  Returns the created row and the new state. -/
def World.logEvent (w : World) (rootId : String) (eventType : String)
    (sourceId : Option String) : IdentityEvent × World :=
  let e : IdentityEvent :=
    { id := w.nextId, rootId := rootId, eventType := eventType
      sourceId := sourceId }
  (e, { w with events := w.events ++ [e], nextId := w.nextId + 1 })

/-- IngestService.tryGrantTitle — `userTitle.create` with the P2002
unique-violation caught and turned into `false` ("already held").  Returns
the new state, whether the title was newly granted, and the trace of the
write (empty when the insert was rejected and rolled back). -/
def tryGrantTitle (w : World) (rootId titleId : String)
    (sourceId : Option String) : World × Bool × Trace :=
  if w.userTitles.any (fun ut => ut.rootId = rootId ∧ ut.titleId = titleId) then
    (w, false, [])
  else
    ({ w with userTitles :=
        w.userTitles ++ [{ rootId := rootId, titleId := titleId, sourceId := sourceId }] },
     true,
     [[DbWrite.insertUserTitle rootId titleId sourceId]])

/-- LEVEL_TITLES constant of the ingest service. -/
def levelTitle (n : Nat) : Option String :=
  if n = 2 then some "title_fate_awakened"
  else if n = 5 then some "title_fate_burning"
  else if n = 10 then some "title_fate_ascendant"
  else none

/-- BOSS_TITLES constant of the ingest service (threshold, title id),
ordered highest tier first. -/
def bossTitles : List (Q × String) :=
  [(100, "title_veilbreaker_100"), (75, "title_veilbreaker_75"),
   (50, "title_veilbreaker_50")]

/-- Threshold recomputed at each cascade step:
`Math.floor(xpBaseThreshold * xpLevelMultiplier ** (lvl - 1))`. -/
def levelThreshold (cfg : ProgConfig) (lvl : Nat) : Int :=
  Q.floor (cfg.xpBaseThreshold * cfg.xpLevelMultiplier ^ (lvl - 1))

/-- The `while (newXp >= threshold)` loop of IngestService.applyXp.  The
loop keeps the total XP fixed and raises the level until it drops below the
recomputed threshold, granting a LEVEL_TITLES title (idempotently) at each
level crossed.  JavaScript has no fuel: the embedding returns `none` when
the supplied fuel is exhausted before the condition turns false, which on
the real server is an infinite loop (reachable when the multiplier is 1.0
and the XP reaches the base threshold). -/
def xpCascade (w : World) (rootId : String) (xp : Int) :
    Nat → Nat → Option (World × Nat × List String × Trace)
  | 0, lvl =>
    if xp < levelThreshold w.config lvl then some (w, lvl, [], []) else none
  | fuel + 1, lvl =>
    if xp < levelThreshold w.config lvl then some (w, lvl, [], [])
    else
      let lvl2 := lvl + 1
      let step : World × List String × Trace :=
        match levelTitle lvl2 with
        | some t =>
          let (w2, granted, tr) := tryGrantTitle w rootId t none
          (w2, if granted then [t] else [], tr)
        | none => (w, [], [])
      match xpCascade step.1 rootId xp fuel lvl2 with
      | none => none
      | some (w3, lvlF, titles, tr2) =>
        some (w3, lvlF, step.2.1 ++ titles, step.2.2 ++ tr2)

/-- Result record of IngestService.applyXp. -/
structure ApplyXpResult where
  newXp : Int
  newLevel : Nat
  levelUp : Option (Nat × Nat)
  titlesGranted : List String
  deriving Repr, DecidableEq

/-- IngestService.applyXp: add the delta, cascade levels, persist the new
`fate_xp`/`fate_level` on the root row (one standalone update call). -/
def applyXp (w : World) (fuel : Nat) (rootId : String) (currentXp : Int)
    (currentLevel : Nat) (xpToAdd : Int) :
    Option (World × ApplyXpResult × Trace) :=
  let newXp := currentXp + xpToAdd
  match xpCascade w rootId newXp fuel currentLevel with
  | none => none
  | some (w2, newLevel, titles, tr) =>
    let w3 := w2.updateUser rootId
      (fun u => { u with fateXp := newXp, fateLevel := newLevel })
    some (w3,
      { newXp := newXp, newLevel := newLevel
        levelUp := if currentLevel < newLevel then some (currentLevel, newLevel) else none
        titlesGranted := titles },
      tr ++ [[DbWrite.updateRootXp rootId newXp newLevel]])

/-- LootService.determineCacheRarity: boss-damage parse plus a uniform roll
`u ∈ [0,1)` scaled to `[0,100)`. -/
def determineCacheRarity (level : Nat) (trigger : String) (u : Q) : String :=
  let isBoss := trigger.startsWith "boss_kill"
  let bossPct : Int :=
    if isBoss then jsParseIntD0 (((trigger.splitOn ":").getD 1 "")) else 0
  let roll := u * 100
  if 10 ≤ level ∧ 100 ≤ bossPct ∧ roll < 5 then "legendary"
  else if 7 ≤ level ∧ 75 ≤ bossPct ∧ roll < 12 then "epic"
  else if 4 ≤ level ∧ roll < 20 then "rare"
  else if 2 ≤ level ∧ roll < 45 then "uncommon"
  else "common"

/-- LootService.grantCache: create a sealed `fate_caches` row, then log a
`loot.cache_granted` ledger row — two standalone calls.  Returns the new
state, the created cache id and the trace. -/
def grantCache (w : World) (rootId cacheType : String)
    (sourceId : Option String) (trigger : String) (level : Nat) (u : Q) :
    World × String × Trace :=
  let rarity := determineCacheRarity level trigger u
  let cacheId := "cache-" ++ toString w.nextId
  let cache : FateCache :=
    { id := cacheId, rootId := rootId, cacheType := cacheType
      rarity := rarity, sourceId := sourceId, trigger := trigger
      status := "sealed", rewardType := none, rewardValue := none
      rewardName := none, rewardRarity := none }
  let w2 := { w with caches := w.caches ++ [cache], nextId := w.nextId + 1 }
  let (e, w3) := w2.logEvent rootId "loot.cache_granted" sourceId
  (w3, cacheId,
   [[DbWrite.insertFateCache cacheId rootId cacheType rarity trigger],
    [DbWrite.insertEvent e]])

/-- Decidable equality for `Except` results, so that concrete endpoint
outcomes can be checked by evaluation. -/
instance {ε α : Type} [DecidableEq ε] [DecidableEq α] : DecidableEq (Except ε α) :=
  fun x y =>
    match x, y with
    | Except.ok a, Except.ok b =>
      if h : a = b then isTrue (by rw [h]) else isFalse (by simp [h])
    | Except.error a, Except.error b =>
      if h : a = b then isTrue (by rw [h]) else isFalse (by simp [h])
    | Except.ok _, Except.error _ => isFalse (by simp)
    | Except.error _, Except.ok _ => isFalse (by simp)

/-- Untyped ingest payload (`Record<string, unknown>`): each handler reads
the fields it needs; `none` models an absent (undefined/null) field. -/
structure Payload where
  difficulty : Option String := none
  nodes_completed : Option Q := none
  boss_damage_pct : Option Q := none
  xp : Option Q := none
  node_id : Option String := none
  title_id : Option String := none
  marker : Option String := none
  deriving Repr, DecidableEq

/-- Body of POST /api/ingest (IngestEventDto). -/
structure IngestDto where
  root_id : String
  event_type : String
  payload : Payload
  deriving Repr, DecidableEq

/-- Resolved source attached to the request by ApiKeyGuard. -/
structure ResolvedSource where
  id : String
  name : String
  deriving Repr, DecidableEq

/-- The `changes_applied` object each handler builds (all fields optional:
each handler sets only its own). -/
structure Changes where
  session_xp : Option Q := none
  boss_bonus_xp : Option Int := none
  total_xp : Option Int := none
  xp_granted : Option Int := none
  node_xp : Option Int := none
  level_up : Option (Nat × Nat) := none
  title_granted : Option String := none
  caches_granted : Option (List String) := none
  title_id : Option String := none
  title_name : Option String := none
  already_held : Option Bool := none
  marker : Option String := none
  deriving Repr, DecidableEq

/-- Response body `{event_id, event_type, changes_applied}`. -/
structure IngestResponse where
  event_id : Nat
  event_type : String
  changes_applied : Changes
  deriving Repr, DecidableEq

/-- ConsentService.validateActiveLink: first `source_links` row matching
(rootId, sourceId, active). -/
def validateActiveLink (w : World) (rootId sourceId : String) :
    Option (String × String) :=
  (w.links.find? (fun l =>
    l.rootId = rootId ∧ l.sourceId = sourceId ∧ l.status = "active")).map
    (fun l => (l.id, l.scope))

/-- JavaScript truthiness test for an optional string (`!s` is true for
undefined and for the empty string). -/
def strFalsy : Option String → Bool
  | none => true
  | some s => s = ""

/-- IngestService.handleSessionCompleted (the part after user and link
validation).  `rng` supplies the `Math.random()` draws for cache rarity. -/
def handleSessionCompleted (w : World) (fuel : Nat) (rng : List Q)
    (dto : IngestDto) (src : ResolvedSource) (user : RootIdentity) :
    Option (Except ApiError (World × Trace × IngestResponse)) :=
  match dto.payload.difficulty, dto.payload.nodes_completed,
      dto.payload.boss_damage_pct with
  | some difficulty, some nodes, some bossPct =>
    if difficulty = "" then
      some (Except.error (ApiError.badRequest
        "session_completed requires: difficulty, nodes_completed, boss_damage_pct"))
    else
      let cfg := w.config
      let sessionXp : Q :=
        if difficulty = "hard" then cfg.xpPerSessionHard else cfg.xpPerSessionNormal
      let bossBonus : Int := Q.floor (bossPct / 100 * cfg.xpBossTierPct * sessionXp)
      let nodeXp : Int := Q.floor (nodes * cfg.xpNodeCompletion)
      let totalXp : Int :=
        Q.floor ((sessionXp + Q.ofInt bossBonus + Q.ofInt nodeXp) * cfg.eventXpMultiplier)
      match applyXp w fuel user.id user.fateXp user.fateLevel totalXp with
      | none => none
      | some (w1, changes, tr1) =>
        let bossStep : World × List String × Trace :=
          match bossTitles.find? (fun bt => bt.1 ≤ bossPct) with
          | some bt =>
            let (w2, granted, tr2) := tryGrantTitle w1 user.id bt.2 (some src.id)
            (w2, if granted then changes.titlesGranted ++ [bt.2] else changes.titlesGranted, tr2)
          | none => (w1, changes.titlesGranted, [])
        let w2 := bossStep.1
        let titlesGranted := bossStep.2.1
        let lvlCacheStep : World × List String × Trace :=
          match changes.levelUp with
          | some _ =>
            let (w3, cid, tr3) := grantCache w2 user.id "level_up" (some src.id)
              ("level_up:" ++ toString changes.newLevel) changes.newLevel (rng.headD 0)
            (w3, [cid], tr3)
          | none => (w2, [], [])
        let w3 := lvlCacheStep.1
        let bossCacheStep : World × List String × Trace :=
          if 50 ≤ bossPct then
            let (w4, cid, tr4) := grantCache w3 user.id "boss_kill" (some src.id)
              ("boss_kill:" ++ toString (Q.floor bossPct)) changes.newLevel
              ((rng.drop (lvlCacheStep.2.1.length)).headD 0)
            (w4, [cid], tr4)
          else (w3, [], [])
        let w4 := bossCacheStep.1
        let cachesGranted := lvlCacheStep.2.1 ++ bossCacheStep.2.1
        let (e, w5) := w4.logEvent user.id dto.event_type (some src.id)
        let changesApplied : Changes :=
          { session_xp := some sessionXp
            boss_bonus_xp := some bossBonus
            node_xp := some nodeXp
            total_xp := some totalXp
            level_up := changes.levelUp
            title_granted := titlesGranted.head?
            caches_granted := if cachesGranted.isEmpty then none else some cachesGranted }
        some (Except.ok (w5,
          tr1 ++ bossStep.2.2 ++ lvlCacheStep.2.2 ++ bossCacheStep.2.2 ++ [[DbWrite.insertEvent e]],
          { event_id := e.id, event_type := e.eventType, changes_applied := changesApplied }))
  | _, _, _ =>
    some (Except.error (ApiError.badRequest
      "session_completed requires: difficulty, nodes_completed, boss_damage_pct"))

/-- IngestService.handleXpGranted. -/
def handleXpGranted (w : World) (fuel : Nat) (dto : IngestDto)
    (src : ResolvedSource) (user : RootIdentity) :
    Option (Except ApiError (World × Trace × IngestResponse)) :=
  match dto.payload.xp with
  | none => some (Except.error (ApiError.badRequest "xp_granted requires: xp (number)"))
  | some xp =>
    let totalXp : Int := Q.floor (xp * w.config.eventXpMultiplier)
    match applyXp w fuel user.id user.fateXp user.fateLevel totalXp with
    | none => none
    | some (w1, changes, tr1) =>
      let (e, w2) := w1.logEvent user.id dto.event_type (some src.id)
      some (Except.ok (w2, tr1 ++ [[DbWrite.insertEvent e]],
        { event_id := e.id, event_type := e.eventType
          changes_applied := { xp_granted := some totalXp, level_up := changes.levelUp } }))

/-- IngestService.handleNodeCompleted. -/
def handleNodeCompleted (w : World) (fuel : Nat) (dto : IngestDto)
    (src : ResolvedSource) (user : RootIdentity) :
    Option (Except ApiError (World × Trace × IngestResponse)) :=
  if strFalsy dto.payload.node_id then
    some (Except.error (ApiError.badRequest "node_completed requires: node_id (string)"))
  else
    let nodeXp : Int := Q.floor (w.config.xpNodeCompletion * w.config.eventXpMultiplier)
    match applyXp w fuel user.id user.fateXp user.fateLevel nodeXp with
    | none => none
    | some (w1, changes, tr1) =>
      let (e, w2) := w1.logEvent user.id dto.event_type (some src.id)
      some (Except.ok (w2, tr1 ++ [[DbWrite.insertEvent e]],
        { event_id := e.id, event_type := e.eventType
          changes_applied := { node_xp := some nodeXp, level_up := changes.levelUp } }))

/-- IngestService.handleTitleGranted. -/
def handleTitleGranted (w : World) (dto : IngestDto)
    (src : ResolvedSource) (user : RootIdentity) :
    Option (Except ApiError (World × Trace × IngestResponse)) :=
  match dto.payload.title_id with
  | none => some (Except.error (ApiError.badRequest "title_granted requires: title_id (string)"))
  | some titleId =>
    if titleId = "" then
      some (Except.error (ApiError.badRequest "title_granted requires: title_id (string)"))
    else
      match w.titles.find? (fun t => t.id = titleId) with
      | none => some (Except.error (ApiError.badRequest ("Unknown title: " ++ titleId)))
      | some title =>
        let (w1, granted, tr1) := tryGrantTitle w user.id titleId (some src.id)
        let (e, w2) := w1.logEvent user.id dto.event_type (some src.id)
        some (Except.ok (w2, tr1 ++ [[DbWrite.insertEvent e]],
          { event_id := e.id, event_type := e.eventType
            changes_applied :=
              { title_id := some titleId, title_name := some title.displayName
                already_held := some (!granted) } }))

/-- IngestService.handleFateMarker. -/
def handleFateMarker (w : World) (dto : IngestDto)
    (src : ResolvedSource) (user : RootIdentity) :
    Option (Except ApiError (World × Trace × IngestResponse)) :=
  match dto.payload.marker with
  | none => some (Except.error (ApiError.badRequest "fate_marker requires: marker (string)"))
  | some marker =>
    if marker = "" then
      some (Except.error (ApiError.badRequest "fate_marker requires: marker (string)"))
    else
      let fm : FateMarker := { rootId := user.id, marker := marker, sourceId := some src.id }
      let w1 := { w with fateMarkers := w.fateMarkers ++ [fm] }
      let (e, w2) := w1.logEvent user.id dto.event_type (some src.id)
      some (Except.ok (w2,
        [[DbWrite.insertFateMarker user.id marker (some src.id)], [DbWrite.insertEvent e]],
        { event_id := e.id, event_type := e.eventType
          changes_applied := { marker := some marker } }))

/-- IngestService.ingest: user lookup, consent gate, dispatch.  The outer
`Option` is the fuel of the XP cascade (`none` = the JS while loop did not
terminate within the supplied fuel). -/
def ingest (w : World) (fuel : Nat) (rng : List Q) (dto : IngestDto)
    (src : ResolvedSource) :
    Option (Except ApiError (World × Trace × IngestResponse)) :=
  match w.findUser dto.root_id with
  | none => some (Except.error (ApiError.notFound ("Identity not found: " ++ dto.root_id)))
  | some user =>
    match validateActiveLink w dto.root_id src.id with
    | none => some (Except.error (ApiError.forbidden
        "No active consent link for this user and source"))
    | some _ =>
      if dto.event_type = "progression.session_completed" then
        handleSessionCompleted w fuel rng dto src user
      else if dto.event_type = "progression.xp_granted" then
        handleXpGranted w fuel dto src user
      else if dto.event_type = "progression.node_completed" then
        handleNodeCompleted w fuel dto src user
      else if dto.event_type = "progression.title_granted" then
        handleTitleGranted w dto src user
      else if dto.event_type = "progression.fate_marker" then
        handleFateMarker w dto src user
      else
        some (Except.error (ApiError.badRequest
          ("Unknown event type: " ++ dto.event_type)))

/-- Body of DELETE /api/users/:root_id/links/:link_id. -/
structure RevokeLinkDto where
  revoked_by : Option String := none
  deriving Repr, DecidableEq

/-- ConsentService.revokeLink: find the link for this root, reject when
absent or already revoked, then (in one `$transaction`) flip it to revoked
and append a `source.link_revoked` ledger row. -/
def revokeLink (w : World) (rootId linkId : String) (dto : RevokeLinkDto) :
    Except ApiError World :=
  match w.links.find? (fun l => l.id = linkId ∧ l.rootId = rootId) with
  | none => Except.error (ApiError.notFound
      ("Source link not found: " ++ linkId ++ " for identity " ++ rootId))
  | some link =>
    if link.status = "revoked" then
      Except.error (ApiError.conflict "Link is already revoked")
    else
      let w1 := { w with links := w.links.map (fun (l : SourceLink) =>
        if l.id = linkId then { l with status := "revoked" } else l) }
      Except.ok (w1.logEvent rootId "source.link_revoked" (some link.sourceId)).2

/-- Browser assertion submitted to POST /api/auth/authenticate/verify.
`clientChallenge` is the challenge string recovered from the decoded
`clientDataJSON` (`none` when the field is absent); `sigValid` abstracts
whether the cryptographic signature checks out against the stored public
key, origin and RP id. -/
structure Assertion where
  credentialId : String
  clientChallenge : Option String
  newCounter : Nat
  sigValid : Bool
  deriving Repr, DecidableEq

/-- AuthService.findAndConsumeChallenge: look the challenge up, reject on
absence, wrong ceremony type or expiry, and delete the row before
returning it. -/
def findAndConsumeChallenge (w : World) (clientChallenge : Option String)
    (expectedType : String) : Except ApiError (Challenge × World) :=
  match clientChallenge with
  | none => Except.error (ApiError.badRequest "No challenge found in client data")
  | some ch =>
    match w.challenges.find? (fun c => c.challenge = ch) with
    | none => Except.error (ApiError.badRequest "Unknown or already-used challenge")
    | some record =>
      if record.challengeType ≠ expectedType then
        Except.error (ApiError.badRequest
          ("Challenge type mismatch: expected " ++ expectedType ++ ", got "
            ++ record.challengeType))
      else if record.expiresAt < w.now then
        Except.error (ApiError.badRequest "Challenge has expired")
      else
        Except.ok (record,
          { w with challenges := w.challenges.filter (fun c => c.id ≠ record.id) })

/-- Modelled from the spec: the counter discipline of the external
`@simplewebauthn/server` `verifyAuthenticationResponse` call (the library
itself is not part of this repository).  Per §4.6 of the spec, the
verification succeeds only when the signature is valid and, whenever the
stored counter is positive, the asserted `newCounter` is strictly greater
than it. -/
def webauthnVerifyAssertion (storedCounter newCounter : Nat)
    (sigValid : Bool) : Bool :=
  sigValid && (storedCounter = 0 || storedCounter < newCounter)

/-- Response of a successful authentication. -/
structure AuthVerifyResponse where
  root_id : String
  key_id : String
  session_token : String
  deriving Repr, DecidableEq

/-- AuthService.verifyAuthentication: credential lookup and status checks,
challenge consumption, assertion verification, counter update, ledger
append and session issue.  `freshToken` stands for the random session
token generated on success. -/
def verifyAuthentication (w : World) (a : Assertion) (freshToken : String) :
    Except ApiError (World × AuthVerifyResponse) :=
  match w.authKeys.find? (fun k => k.credentialId = a.credentialId) with
  | none => Except.error (ApiError.unauthorized "Unknown credential")
  | some authKey =>
    if authKey.status ≠ "active" then
      Except.error (ApiError.unauthorized "Credential has been revoked")
    else
      match w.findUser authKey.rootId with
      | none => Except.error ApiError.internalError
      | some root =>
        if root.status ≠ "active" then
          Except.error (ApiError.unauthorized "Identity is suspended or deleted")
        else
          match findAndConsumeChallenge w a.clientChallenge "authentication" with
          | Except.error e => Except.error e
          | Except.ok (_, w1) =>
            if !webauthnVerifyAssertion authKey.counter a.newCounter a.sigValid then
              Except.error (ApiError.unauthorized "Authentication verification failed")
            else
              let w2 := { w1 with authKeys := w1.authKeys.map (fun (k : AuthKey) =>
                if k.id = authKey.id then { k with counter := a.newCounter } else k) }
              let w3 := (w2.logEvent authKey.rootId "identity.authenticated" none).2
              let w4 := { w3 with sessionTokens := w3.sessionTokens ++
                [{ tokenHash := freshToken, rootId := authKey.rootId
                   expiresAt := w3.now + 3600 }] }
              Except.ok (w4,
                { root_id := authKey.rootId, key_id := authKey.id
                  session_token := freshToken })

/-- KeyService.verifyRotation, challenge-consumption prefix (lines 135-154
of `key.service.ts`): the same single-use discipline inlined, plus an
ownership check against the rotating root. -/
def rotationConsumeChallenge (w : World) (rootId : String)
    (clientChallenge : String) : Except ApiError (Challenge × World) :=
  match w.challenges.find? (fun c => c.challenge = clientChallenge) with
  | none => Except.error (ApiError.badRequest "Unknown or already-used challenge")
  | some record =>
    if record.rootId ≠ some rootId then
      Except.error (ApiError.badRequest "Challenge does not belong to this identity")
    else if record.expiresAt < w.now then
      Except.error (ApiError.badRequest "Challenge has expired")
    else
      Except.ok (record,
        { w with challenges := w.challenges.filter (fun c => c.id ≠ record.id) })

/-- Count of the root's active keys (the `authKey.count` query of
KeyService.revokeKey). -/
def countActiveKeys (w : World) (rootId : String) : Nat :=
  (w.authKeys.filter (fun k => k.rootId = rootId ∧ k.status = "active")).length

/-- KeyService.revokeKey: find the key for this root, refuse when already
revoked or when it is the root's last active key, otherwise mark it revoked
and append a `key.revoked` ledger row. -/
def revokeKey (w : World) (rootId keyId : String) : Except ApiError World :=
  match w.authKeys.find? (fun k => k.id = keyId ∧ k.rootId = rootId) with
  | none => Except.error (ApiError.notFound
      ("Key not found: " ++ keyId ++ " for identity " ++ rootId))
  | some key =>
    if key.status = "revoked" then
      Except.error (ApiError.conflict "Key is already revoked")
    else
      let activeKeyCount := countActiveKeys w rootId
      if activeKeyCount ≤ 1 then
        Except.error (ApiError.conflict
          "Cannot revoke the last active key. Register a new key first.")
      else
        let w1 := { w with authKeys := w.authKeys.map (fun (k : AuthKey) =>
          if k.id = keyId then { k with status := "revoked" } else k) }
        Except.ok (w1.logEvent rootId "key.revoked" none).2

/-- LootService.openCache inner selection loop: walk the entries
subtracting weights from the roll until it crosses zero; when the loop
finishes without a break the first entry stays selected. -/
def pickWeighted (dflt : LootEntry) : Q → List LootEntry → LootEntry
  | _, [] => dflt
  | roll, e :: es =>
    if roll - Q.ofInt e.weight ≤ 0 then e
    else pickWeighted dflt (roll - Q.ofInt e.weight) es

/-- LootService.applyReward: apply one drawn loot entry to the player.
For `xp_boost` the parsed integer is added to `fate_xp` with a single
`update` (no level cascade on this path); for `title` a collision falls
back to a flat +100 XP; `marker` inserts a FateMarker; `gear` is soulbound
inventory (under GearService, outside the claims — modelled as a no-op on
the tables this file tracks; no reward type touches `fate_level`). -/
def applyReward (w : World) (rootId : String) (entry : LootEntry)
    (sourceId : Option String) : World :=
  if entry.rewardType = "xp_boost" then
    w.updateUser rootId (fun u => { u with fateXp := u.fateXp + jsParseIntD0 entry.rewardValue })
  else if entry.rewardType = "title" then
    if w.userTitles.any (fun ut => ut.rootId = rootId ∧ ut.titleId = entry.rewardValue) then
      w.updateUser rootId (fun u => { u with fateXp := u.fateXp + 100 })
    else
      { w with userTitles := w.userTitles ++
        [{ rootId := rootId, titleId := entry.rewardValue, sourceId := sourceId }] }
  else if entry.rewardType = "marker" then
    { w with fateMarkers := w.fateMarkers ++
      [{ rootId := rootId, marker := entry.rewardValue, sourceId := sourceId }] }
  else
    w

/-- Response of POST open-cache. -/
structure OpenCacheResponse where
  cache_id : String
  cache_type : String
  cache_rarity : String
  reward_type : String
  reward_value : String
  deriving Repr, DecidableEq

/-- LootService.openCache: ownership and sealed checks, eligible-entry
collection, weighted draw (`u` is the `Math.random()` output in `[0,1)`),
reward application, cache update to `opened`, ledger append. -/
def openCache (w : World) (u : Q) (rootId cacheId : String) :
    Except ApiError (World × OpenCacheResponse) :=
  match w.caches.find? (fun c => c.id = cacheId) with
  | none => Except.error (ApiError.notFound ("Cache not found: " ++ cacheId))
  | some cache =>
    if cache.rootId ≠ rootId then
      Except.error (ApiError.badRequest "This cache does not belong to you")
    else if cache.status ≠ "sealed" then
      Except.error (ApiError.badRequest "This cache has already been opened")
    else
      match w.findUser rootId with
      | none => Except.error (ApiError.notFound "Identity not found")
      | some user =>
        let entries := w.lootTable.filter (fun e =>
          e.cacheType = cache.cacheType ∧ e.minLevel ≤ user.fateLevel)
        match entries with
        | [] => Except.error (ApiError.badRequest
            ("No loot table entries for cache type: " ++ cache.cacheType))
        | e0 :: _ =>
          let totalWeight : Int := (entries.map (fun e => e.weight)).sum
          let roll : Q := u * Q.ofInt totalWeight
          let selected := pickWeighted e0 roll entries
          let w1 := applyReward w rootId selected cache.sourceId
          let w2 := { w1 with caches := w1.caches.map (fun (c : FateCache) =>
            if c.id = cacheId then
              { c with status := "opened"
                       rewardType := some selected.rewardType
                       rewardValue := some selected.rewardValue
                       rewardName := some selected.displayName
                       rewardRarity := some selected.rarityTier }
            else c) }
          Except.ok ((w2.logEvent rootId "loot.cache_opened" cache.sourceId).2,
            { cache_id := cacheId, cache_type := cache.cacheType
              cache_rarity := cache.rarity
              reward_type := selected.rewardType
              reward_value := selected.rewardValue })

/-- ApiKeyGuard.canActivate: reject a missing (or empty — JavaScript
truthiness) header, hash the presented key and find an active source with
that hash.  The hash function is passed in as a parameter: the guard logic
is independent of it. -/
def apiKeyCanActivate (hash : String → String) (sources : List SourceRec)
    (header : Option String) : Except ApiError ResolvedSource :=
  match header with
  | none => Except.error (ApiError.forbidden "Missing X-PIK-API-Key header")
  | some k =>
    if k = "" then
      Except.error (ApiError.forbidden "Missing X-PIK-API-Key header")
    else
      match sources.find? (fun s => s.apiKeyHash = hash k ∧ s.status = "active") with
      | none => Except.error (ApiError.forbidden "Invalid API key")
      | some s => Except.ok { id := s.id, name := s.name }

/-- Stated from the spec sentence of claim C2 (for refinement comparison
with the implementation, never used by it): the cumulative XP requirement
`sum over k in [1, L-1] of floor(baseT * mult^(k-1))`. -/
def specCumulativeNeed (cfg : ProgConfig) : Nat → Int
  | 0 => 0
  | 1 => 0
  | n + 2 => specCumulativeNeed cfg (n + 1) + levelThreshold cfg (n + 1)

/-- Projection: the post-state of a successful ingest call. -/
def ingestWorld (r : Option (Except ApiError (World × Trace × IngestResponse))) :
    Option World :=
  match r with
  | some (Except.ok (w, _, _)) => some w
  | _ => none

/-- Projection: the transaction trace of a successful ingest call. -/
def ingestTrace (r : Option (Except ApiError (World × Trace × IngestResponse))) :
    Option Trace :=
  match r with
  | some (Except.ok (_, tr, _)) => some tr
  | _ => none

/-- Projection: the response body of a successful ingest call. -/
def ingestResp (r : Option (Except ApiError (World × Trace × IngestResponse))) :
    Option IngestResponse :=
  match r with
  | some (Except.ok (_, _, resp)) => some resp
  | _ => none

/-- Projection: the post-state of a successful authentication. -/
def authOkWorld (r : Except ApiError (World × AuthVerifyResponse)) : Option World :=
  match r with
  | Except.ok (w, _) => some w
  | Except.error _ => none

section SampleData

/-- Empty database with the seeded default configuration. -/
def baseWorld : World :=
  { users := [], links := [], titles := [], userTitles := [], fateMarkers := []
    events := [], caches := [], lootTable := [], authKeys := [], challenges := []
    sources := [], sessionTokens := [], config := defaultConfig
    nextId := 0, now := 1000 }

/-- Resolved source `src-x` as attached by the API-key guard. -/
def srcX : ResolvedSource := { id := "src-x", name := "Source X" }

/-- Fresh root with an active consent link to `src-x`. -/
def freshLinkedWorld : World :=
  { baseWorld with
    users := [{ id := "root-1", heroName := "Mira", fateXp := 0, fateLevel := 1
                status := "active" }]
    links := [{ id := "link-1", rootId := "root-1", sourceId := "src-x"
                scope := "xp fate_markers titles", status := "active" }] }

/-- The C7 session payload: hard difficulty, 6 nodes, 72% boss damage. -/
def c7Dto : IngestDto :=
  { root_id := "root-1", event_type := "progression.session_completed"
    payload := { difficulty := some "hard", nodes_completed := some 6
                 boss_damage_pct := some 72 } }

/-- The E2 seed of the spec: root at `fate_xp = 195, fate_level = 1`,
default configuration, active link to `src-x`. -/
def e2World : World :=
  { freshLinkedWorld with
    users := [{ id := "root-1", heroName := "Mira", fateXp := 195, fateLevel := 1
                status := "active" }] }

/-- The E2 ingest body: a normal session with no nodes and no boss damage. -/
def e2Dto : IngestDto :=
  { root_id := "root-1", event_type := "progression.session_completed"
    payload := { difficulty := some "normal", nodes_completed := some 0
                 boss_damage_pct := some 0 } }

/-- An ingest body with an unsupported event type. -/
def bogusDto : IngestDto :=
  { root_id := "root-1", event_type := "progression.bogus", payload := {} }

/-- A direct XP grant of 1 point. -/
def xpDto : IngestDto :=
  { root_id := "root-1", event_type := "progression.xp_granted"
    payload := { xp := some 1 } }

/-- Authentication fixture: an active root with one active credential whose
stored counter is 5, and one pending unexpired authentication challenge. -/
def c4World : World :=
  { baseWorld with
    users := [{ id := "root-1", heroName := "Mira", fateXp := 0, fateLevel := 1
                status := "active" }]
    authKeys := [{ id := "key-1", rootId := "root-1", credentialId := "cred-1"
                   counter := 5, status := "active" }]
    challenges := [{ id := 1, challenge := "ch-1"
                     challengeType := "authentication", rootId := some "root-1"
                     expiresAt := 2000 }] }

/-- A valid assertion over challenge `ch-1` advancing the counter to 6. -/
def c4Assertion : Assertion :=
  { credentialId := "cred-1", clientChallenge := some "ch-1", newCounter := 6
    sigValid := true }

/-- Key-management fixture: one root with two active keys. -/
def c6World : World :=
  { baseWorld with
    authKeys := [{ id := "key-a", rootId := "root-1", credentialId := "cred-a"
                   counter := 1, status := "active" },
                 { id := "key-b", rootId := "root-1", credentialId := "cred-b"
                   counter := 2, status := "active" }] }

/-- Key-management fixture: one root whose only key is active. -/
def c6WorldSolo : World :=
  { baseWorld with
    authKeys := [{ id := "key-a", rootId := "root-1", credentialId := "cred-a"
                   counter := 1, status := "active" }] }

/-- Loot fixture: a level-4 root holding one sealed `boss_kill` cache, with
one eligible loot-table entry. -/
def c8World : World :=
  { baseWorld with
    users := [{ id := "root-1", heroName := "Mira", fateXp := 10, fateLevel := 4
                status := "active" }]
    caches := [{ id := "cache-1", rootId := "root-1", cacheType := "boss_kill"
                 rarity := "rare", sourceId := some "src-x"
                 trigger := "boss_kill:72", status := "sealed"
                 rewardType := none, rewardValue := none, rewardName := none
                 rewardRarity := none }]
    lootTable := [{ id := 1, cacheType := "boss_kill", rewardType := "xp_boost"
                    rewardValue := "50", displayName := "Minor XP Cache"
                    weight := 10, rarityTier := "common", minLevel := 1 }] }

/-- The same loot fixture with the cache already opened. -/
def c8OpenedWorld : World :=
  { c8World with
    caches := [{ id := "cache-1", rootId := "root-1", cacheType := "boss_kill"
                 rarity := "rare", sourceId := some "src-x"
                 trigger := "boss_kill:72", status := "opened"
                 rewardType := some "xp_boost", rewardValue := some "50"
                 rewardName := some "Minor XP Cache"
                 rewardRarity := some "common" }] }

end SampleData

/-- Specification predicate for a transaction trace segment: it appends no
ledger row of the given event type, and every one of its transaction units
holds exactly one primitive write (each Prisma call runs in its own
implicit transaction). -/
def TraceOk (ty : String) (tr : Trace) : Prop :=
  Trace.eventCount tr ty = 0 ∧ ∀ u ∈ tr, u.length = 1

section Lemmas

/-- Updating (by unique key) the rows matching a target commutes with
`find?` for that target, provided the update preserves the key. -/
theorem find_map_update {α : Type} (key : α → String) (target : String)
    (f : α → α) (hf : ∀ a, key (f a) = key a) (l : List α) :
    (l.map (fun a => if key a = target then f a else a)).find?
        (fun a => key a = target) =
      (l.find? (fun a => key a = target)).map f := by
  induction l with
  | nil => simp
  | cons a t ih =>
    by_cases h : key a = target
    · simp [List.find?, h, hf]
    · simp only [List.map_cons, if_neg h]
      rw [List.find?_cons_of_neg, List.find?_cons_of_neg, ih] <;> simp [h]

/-- Rows whose key differs from the target are untouched by the update. -/
theorem mem_map_update_of_ne {α : Type} (key : α → String) (target : String)
    (f : α → α) (l : List α) (a : α) (ha : a ∈ l) (hne : key a ≠ target) :
    a ∈ l.map (fun b => if key b = target then f b else b) := by
  refine List.mem_map.mpr ⟨a, ha, ?_⟩
  simp [hne]

/-- Convenience instance of `find_map_update` for the root-identity table. -/
theorem findUser_updateUser (w : World) (rootId : String)
    (f : RootIdentity → RootIdentity) (hf : ∀ u, (f u).id = u.id) :
    (w.updateUser rootId f).findUser rootId = (w.findUser rootId).map f := by
  simp only [World.updateUser, World.findUser]
  exact find_map_update RootIdentity.id rootId f hf w.users

end Lemmas

/-- C7: with the default configuration (session XP 100/150, boss tier 0.5,
node XP 15, event multiplier 1.0), ingesting a `progression.session_completed`
event with difficulty hard, 6 nodes completed and 72% boss damage records
`session_xp = 150`, `boss_bonus_xp = 54`, `node_xp = 90` and
`total_xp = 294` in `changes_applied`. -/
theorem C7_xp_formula_identity :
    (ingestResp (ingest freshLinkedWorld 10 [0, 0] c7Dto srcX)).map
        (fun (r : IngestResponse) =>
          (r.changes_applied.session_xp, r.changes_applied.boss_bonus_xp,
           r.changes_applied.node_xp, r.changes_applied.total_xp)) =
      some (some 150, some 54, some 90, some 294) := by
  decide

/-- C10: applying an `xp_boost` loot reward adds the parsed integer to the
owner's `fate_xp` by a single row update, leaves `fate_level` untouched (no
level cascade runs on this path) and writes nothing else: ledger, titles,
caches, markers and every other user row are unchanged. -/
theorem C10_xp_boost_no_cascade (w : World) (rootId : String)
    (entry : LootEntry) (sourceId : Option String) (user : RootIdentity)
    (hty : entry.rewardType = "xp_boost")
    (hu : w.findUser rootId = some user) :
    (applyReward w rootId entry sourceId).findUser rootId =
      some { user with fateXp := user.fateXp + jsParseIntD0 entry.rewardValue } ∧
    ((applyReward w rootId entry sourceId).findUser rootId).map
        RootIdentity.fateLevel = some user.fateLevel ∧
    (applyReward w rootId entry sourceId).events = w.events ∧
    (applyReward w rootId entry sourceId).userTitles = w.userTitles ∧
    (applyReward w rootId entry sourceId).caches = w.caches ∧
    (applyReward w rootId entry sourceId).fateMarkers = w.fateMarkers ∧
    ∀ v ∈ w.users, v.id ≠ rootId →
      v ∈ (applyReward w rootId entry sourceId).users := by
  have hra : applyReward w rootId entry sourceId =
      w.updateUser rootId
        (fun u => { u with fateXp := u.fateXp + jsParseIntD0 entry.rewardValue }) := by
    simp [applyReward, hty]
  have hfind := findUser_updateUser w rootId
    (fun u => { u with fateXp := u.fateXp + jsParseIntD0 entry.rewardValue })
    (fun _ => rfl)
  rw [hra]
  refine ⟨?_, ?_, rfl, rfl, rfl, rfl, ?_⟩
  · rw [hfind, hu]; rfl
  · rw [hfind, hu]; rfl
  · intro v hv hne
    exact mem_map_update_of_ne RootIdentity.id rootId _ w.users v hv hne

/-- Deleting the found challenge row removes every row with that challenge
string, because the unique index keeps challenge strings distinct. -/
theorem find_challenge_after_delete (cs : List Challenge) (ch : String)
    (record : Challenge)
    (hnd : (cs.map Challenge.challenge).Nodup)
    (hfind : cs.find? (fun c => c.challenge = ch) = some record) :
    (cs.filter (fun c => c.id ≠ record.id)).find?
      (fun c => c.challenge = ch) = none := by
  rw [List.find?_eq_none]
  intro c hc hp
  rcases List.mem_filter.mp hc with ⟨hmem, hid⟩
  have hch : c.challenge = ch := by simpa using hp
  have hid2 : c.id ≠ record.id := by simpa using hid
  have hrecmem := List.mem_of_find?_eq_some hfind
  have hrecch : record.challenge = ch := by simpa using List.find?_some hfind
  have hceq : c = record :=
    List.inj_on_of_nodup_map hnd hmem hrecmem (by rw [hch, hrecch])
  exact hid2 (by rw [hceq])

/-- C5: a WebAuthnChallenge is consumed by at most one phase-2 attempt.
When `findAndConsumeChallenge` succeeds it deletes the row, and repeating
the same submission against the resulting state fails with the bad-request
message `Unknown or already-used challenge`; the inlined challenge
consumption of `KeyService.verifyRotation` behaves the same way for a
replayed rotation attestation. -/
theorem C5_challenge_single_use (w : World) (ch ty : String)
    (rec : Challenge) (w1 : World)
    (hnd : (w.challenges.map Challenge.challenge).Nodup)
    (hok : findAndConsumeChallenge w (some ch) ty = Except.ok (rec, w1)) :
    (∀ c ∈ w1.challenges, c.id ≠ rec.id) ∧
    findAndConsumeChallenge w1 (some ch) ty =
      Except.error (ApiError.badRequest "Unknown or already-used challenge") ∧
    ∀ (rootId : String) (rec2 : Challenge) (w2 : World),
      rotationConsumeChallenge w rootId ch = Except.ok (rec2, w2) →
      rotationConsumeChallenge w2 rootId ch =
        Except.error (ApiError.badRequest "Unknown or already-used challenge") := by
  simp only [findAndConsumeChallenge] at hok
  split at hok
  · exact absurd hok (by simp)
  · rename_i record hfind
    split at hok
    · exact absurd hok (by simp)
    · split at hok
      · exact absurd hok (by simp)
      · rw [Except.ok.injEq, Prod.mk.injEq] at hok
        obtain ⟨hrec, hw1⟩ := hok
        have hnone := find_challenge_after_delete w.challenges ch record hnd hfind
        subst hrec
        refine ⟨?_, ?_, ?_⟩
        · intro c hc
          rw [← hw1] at hc
          have := (List.mem_filter.mp hc).2
          simpa using this
        · simp only [findAndConsumeChallenge, ← hw1]
          simp only [hnone]
        · intro rootId rec2 w2 hok2
          simp only [rotationConsumeChallenge, hfind] at hok2
          split at hok2
          · exact absurd hok2 (by simp)
          · rw [Except.ok.injEq, Prod.mk.injEq] at hok2
            obtain ⟨hr2, hw2⟩ := hok2
            simp only [rotationConsumeChallenge, ← hw2]
            simp only [hnone]

/-- Witness for C5: a concrete consume-then-replay run — the first attempt
deletes the single stored challenge, the second fails. -/
theorem C5_challenge_single_use_witness :
    findAndConsumeChallenge
        { baseWorld with challenges :=
            [{ id := 1, challenge := "ch-1", challengeType := "authentication"
               rootId := none, expiresAt := 2000 }] }
        (some "ch-1") "authentication" =
      Except.ok
        ({ id := 1, challenge := "ch-1", challengeType := "authentication"
           rootId := none, expiresAt := 2000 },
         { baseWorld with challenges := [] }) ∧
    findAndConsumeChallenge { baseWorld with challenges := [] }
        (some "ch-1") "authentication" =
      Except.error (ApiError.badRequest "Unknown or already-used challenge") := by
  refine ⟨by decide, ?_⟩
  exact (C5_challenge_single_use
    { baseWorld with challenges :=
        [{ id := 1, challenge := "ch-1", challengeType := "authentication"
           rootId := none, expiresAt := 2000 }] }
    "ch-1" "authentication"
    { id := 1, challenge := "ch-1", challengeType := "authentication"
      rootId := none, expiresAt := 2000 }
    { baseWorld with challenges := [] }
    (by decide) (by decide)).2.1

/-- Revoking by key id leaves a key list untouched when no row has the id. -/
theorem map_revoke_id_of_not_mem (l : List AuthKey) (keyId : String)
    (h : ∀ k ∈ l, k.id ≠ keyId) :
    l.map (fun (k : AuthKey) =>
        if k.id = keyId then { k with status := "revoked" } else k) = l := by
  induction l with
  | nil => simp
  | cons a t ih =>
    simp only [List.map_cons]
    rw [if_neg (h a (by simp)), ih (fun k hk => h k (List.mem_cons_of_mem a hk))]

/-- Revoking one active key (identified by a unique id) removes exactly one
element from the root's active-key set. -/
theorem countActive_after_revoke (l : List AuthKey) (rootId keyId : String)
    (key : AuthKey) (hnd : (l.map AuthKey.id).Nodup) (hmem : key ∈ l)
    (hid : key.id = keyId) (hroot : key.rootId = rootId)
    (hact : key.status = "active") :
    ((l.map (fun (k : AuthKey) =>
        if k.id = keyId then { k with status := "revoked" } else k)).filter
          (fun k => k.rootId = rootId ∧ k.status = "active")).length + 1 =
      (l.filter (fun k => k.rootId = rootId ∧ k.status = "active")).length := by
  induction l with
  | nil => cases hmem
  | cons a t ih =>
    rw [List.map_cons, List.nodup_cons] at hnd
    rcases List.mem_cons.mp hmem with rfl | hmemT
    · have hrest : t.map (fun (k : AuthKey) =>
          if k.id = keyId then { k with status := "revoked" } else k) = t := by
        refine map_revoke_id_of_not_mem t keyId (fun k hk hkid => hnd.1 ?_)
        rw [hid, ← hkid]
        exact List.mem_map_of_mem AuthKey.id hk
      simp only [List.map_cons, if_pos hid, hrest]
      rw [List.filter_cons, List.filter_cons]
      have hpredOld : (decide (key.rootId = rootId ∧ key.status = "active")) = true := by
        simp [hroot, hact]
      have hpredNew :
          (decide (({ key with status := "revoked" } : AuthKey).rootId = rootId ∧
            ({ key with status := "revoked" } : AuthKey).status = "active")) = false := by
        simp
      rw [hpredOld, hpredNew]
      simp
    · have haid : a.id ≠ keyId := by
        intro haid
        apply hnd.1
        rw [haid, ← hid]
        exact List.mem_map_of_mem AuthKey.id hmemT
      simp only [List.map_cons, if_neg haid]
      rw [List.filter_cons, List.filter_cons]
      by_cases hpa : decide (a.rootId = rootId ∧ a.status = "active") = true
      · rw [if_pos hpa, if_pos hpa]
        have := ih hnd.2 hmemT
        simp only [List.length_cons]
        omega
      · rw [if_neg hpa, if_neg hpa]
        exact ih hnd.2 hmemT

/-- C6: last-key safety.  Revoking a root's only active key fails with a
409 Conflict (and, the service having thrown before any write, the key
stays active); revoking one of two or more active keys succeeds and
removes exactly one key from the active set, so at least one remains; in
general every successful revoke leaves the root with at least one active
key. -/
theorem C6_last_key_safety (w : World) (rootId keyId : String) (key : AuthKey)
    (hfind : w.authKeys.find? (fun k => k.id = keyId ∧ k.rootId = rootId) =
      some key)
    (hact : key.status = "active")
    (hnd : (w.authKeys.map AuthKey.id).Nodup) :
    (countActiveKeys w rootId = 1 →
      revokeKey w rootId keyId =
        Except.error (ApiError.conflict
          "Cannot revoke the last active key. Register a new key first.")) ∧
    (2 ≤ countActiveKeys w rootId →
      ∃ w2, revokeKey w rootId keyId = Except.ok w2 ∧
        countActiveKeys w2 rootId + 1 = countActiveKeys w rootId ∧
        1 ≤ countActiveKeys w2 rootId) ∧
    (∀ w2, revokeKey w rootId keyId = Except.ok w2 →
      1 ≤ countActiveKeys w2 rootId) := by
  have hp := List.find?_some hfind
  have hmem := List.mem_of_find?_eq_some hfind
  rw [decide_eq_true_eq] at hp
  obtain ⟨hid, hroot⟩ := hp
  have hnotrev : ¬ key.status = "revoked" := by rw [hact]; decide
  have hcountEq : countActiveKeys
      ((World.logEvent
        { w with authKeys := w.authKeys.map (fun (k : AuthKey) =>
            if k.id = keyId then { k with status := "revoked" } else k) }
        rootId "key.revoked" none).2) rootId + 1 =
      countActiveKeys w rootId := by
    simpa [countActiveKeys, World.logEvent] using
      countActive_after_revoke w.authKeys rootId keyId key hnd hmem hid hroot hact
  refine ⟨?_, ?_, ?_⟩
  · intro h1
    simp only [revokeKey, hfind]
    rw [if_neg hnotrev, if_pos (by omega : countActiveKeys w rootId ≤ 1)]
  · intro h2
    have hgt : ¬ countActiveKeys w rootId ≤ 1 := by omega
    refine ⟨(World.logEvent
        { w with authKeys := w.authKeys.map (fun (k : AuthKey) =>
            if k.id = keyId then { k with status := "revoked" } else k) }
        rootId "key.revoked" none).2, ?_, hcountEq, by omega⟩
    simp only [revokeKey, hfind]
    rw [if_neg hnotrev, if_neg hgt]
  · intro w2 hok
    simp only [revokeKey, hfind] at hok
    rw [if_neg hnotrev] at hok
    by_cases hle : countActiveKeys w rootId ≤ 1
    · rw [if_pos hle] at hok; exact absurd hok (by simp)
    · rw [if_neg hle] at hok
      rw [Except.ok.injEq] at hok
      rw [← hok]
      omega

/-- Witness for C6 at the two-key fixture: revoking `key-a` succeeds and
leaves exactly one active key; at the one-key fixture the revoke fails with
the 409 conflict. -/
theorem C6_last_key_safety_witness :
    (∃ w2, revokeKey c6World "root-1" "key-a" = Except.ok w2 ∧
      countActiveKeys w2 "root-1" + 1 = countActiveKeys c6World "root-1" ∧
      1 ≤ countActiveKeys w2 "root-1") ∧
    revokeKey c6WorldSolo "root-1" "key-a" =
      Except.error (ApiError.conflict
        "Cannot revoke the last active key. Register a new key first.") := by
  constructor
  · exact (C6_last_key_safety c6World "root-1" "key-a"
      { id := "key-a", rootId := "root-1", credentialId := "cred-a"
        counter := 1, status := "active" }
      (by decide) rfl (by decide)).2.1 (by decide)
  · exact (C6_last_key_safety c6WorldSolo "root-1" "key-a"
      { id := "key-a", rootId := "root-1", credentialId := "cred-a"
        counter := 1, status := "active" }
      (by decide) rfl (by decide)).1 (by decide)

/-- Witness for C10 at a concrete world: a 250-XP boost on a level-3 root
moves `fate_xp` from 40 to 290 with the level still 3. -/
theorem C10_xp_boost_no_cascade_witness :
    (applyReward
        { baseWorld with users := [{ id := "r", heroName := "H", fateXp := 40
                                     fateLevel := 3, status := "active" }] }
        "r"
        { id := 1, cacheType := "level_up", rewardType := "xp_boost"
          rewardValue := "250", displayName := "XP Boost", weight := 10
          rarityTier := "common", minLevel := 1 }
        none).findUser "r" =
      some { id := "r", heroName := "H", fateXp := 290, fateLevel := 3
             status := "active" } := by
  have h := C10_xp_boost_no_cascade
    { baseWorld with users := [{ id := "r", heroName := "H", fateXp := 40
                                 fateLevel := 3, status := "active" }] }
    "r"
    { id := 1, cacheType := "level_up", rewardType := "xp_boost"
      rewardValue := "250", displayName := "XP Boost", weight := 10
      rarityTier := "common", minLevel := 1 }
    none
    { id := "r", heroName := "H", fateXp := 40, fateLevel := 3, status := "active" }
    rfl (by decide)
  simpa using h.1

/-- C9 counterexample: the guard answers a missing `X-PIK-API-Key` header
with the message `Missing X-PIK-API-Key header` but an unknown (or
suspended-source) key with `Invalid API key`, so the error is not the same
across the three failure cases — the missing-header case is
distinguishable. -/
theorem C9_counterexample :
    apiKeyCanActivate (fun s => s) [] none =
      Except.error (ApiError.forbidden "Missing X-PIK-API-Key header") ∧
    apiKeyCanActivate (fun s => s) [] (some "pik_abc") =
      Except.error (ApiError.forbidden "Invalid API key") ∧
    apiKeyCanActivate (fun s => s)
        [{ id := "src-1", name := "S", status := "suspended"
           apiKeyHash := "pik_abc" }] (some "pik_abc") =
      Except.error (ApiError.forbidden "Invalid API key") ∧
    ApiError.forbidden "Missing X-PIK-API-Key header" ≠
      ApiError.forbidden "Invalid API key" := by
  decide

/-- C9 (amended): every failure of the API-key guard carries the Forbidden
(403) status, and the guard does not reveal whether a presented key is
unknown or belongs to a suspended source (both yield the identical
`Invalid API key` error); only the missing-header case has a distinct
message. -/
theorem C9_guard_opacity (hash : String → String) (sources : List SourceRec)
    (header : Option String) :
    (∀ e, apiKeyCanActivate hash sources header = Except.error e →
      e.status = 403) ∧
    (∀ k, header = some k → k ≠ "" →
      (∀ s ∈ sources, ¬ (s.apiKeyHash = hash k ∧ s.status = "active")) →
      apiKeyCanActivate hash sources header =
        Except.error (ApiError.forbidden "Invalid API key")) := by
  constructor
  · intro e he
    cases header with
    | none =>
      simp only [apiKeyCanActivate] at he
      rw [Except.error.injEq] at he
      rw [← he]
      rfl
    | some k =>
      simp only [apiKeyCanActivate] at he
      split at he
      · rw [Except.error.injEq] at he
        rw [← he]
        rfl
      · split at he
        · rw [Except.error.injEq] at he
          rw [← he]
          rfl
        · exact absurd he (by simp)
  · intro k hk hne hnomatch
    subst hk
    have hfind : sources.find?
        (fun s => s.apiKeyHash = hash k ∧ s.status = "active") = none := by
      rw [List.find?_eq_none]
      intro s hs hp
      exact hnomatch s hs (by simpa using hp)
    simp only [apiKeyCanActivate, hfind]
    rw [if_neg hne]

/-- Witness for C9 at a suspended source: the presented key hashes to the
suspended source's stored hash, and the guard answers exactly the opaque
403 `Invalid API key`. -/
theorem C9_guard_opacity_witness :
    apiKeyCanActivate (fun s => s)
        [{ id := "src-1", name := "S", status := "suspended"
           apiKeyHash := "pik_k1" }] (some "pik_k1") =
      Except.error (ApiError.forbidden "Invalid API key") ∧
    (ApiError.forbidden "Invalid API key").status = 403 := by
  refine ⟨?_, by decide⟩
  exact (C9_guard_opacity (fun s => s)
      [{ id := "src-1", name := "S", status := "suspended"
         apiKeyHash := "pik_k1" }] (some "pik_k1")).2
    "pik_k1" rfl (by decide) (by decide)

/-- Ledger-row counting distributes over trace concatenation. -/
theorem eventCount_append (t1 t2 : Trace) (ty : String) :
    Trace.eventCount (t1 ++ t2) ty =
      Trace.eventCount t1 ty + Trace.eventCount t2 ty := by
  simp [Trace.eventCount, List.flatten_append, List.filter_append]

/-- The empty trace is well formed. -/
theorem traceOk_nil (ty : String) : TraceOk ty [] :=
  ⟨rfl, by simp⟩

/-- Well-formed trace segments concatenate. -/
theorem traceOk_append (ty : String) (t1 t2 : Trace)
    (h1 : TraceOk ty t1) (h2 : TraceOk ty t2) : TraceOk ty (t1 ++ t2) := by
  refine ⟨?_, ?_⟩
  · rw [eventCount_append, h1.1, h2.1]
  · intro u hu
    rcases List.mem_append.mp hu with h | h
    exacts [h1.2 u h, h2.2 u h]

/-- Appending the single top-level ledger row to a well-formed prefix
yields exactly one row of the request's type, all units singleton. -/
theorem traceOk_topCount (ty : String) (tr : Trace) (h : TraceOk ty tr)
    (e : IdentityEvent) (hty : e.eventType = ty) :
    Trace.eventCount (tr ++ [[DbWrite.insertEvent e]]) ty = 1 ∧
    ∀ u ∈ tr ++ [[DbWrite.insertEvent e]], u.length = 1 := by
  constructor
  · rw [eventCount_append, h.1]
    simp [Trace.eventCount, DbWrite.eventTypeOf, hty]
  · intro u hu
    rcases List.mem_append.mp hu with h1 | h2
    · exact h.2 u h1
    · simp only [List.mem_singleton] at h2
      rw [h2]; rfl

/-- A lone top-level ledger append is exactly one row of its type. -/
theorem singleRow_top (ty : String) (e : IdentityEvent)
    (hty : e.eventType = ty) :
    Trace.eventCount [[DbWrite.insertEvent e]] ty = 1 ∧
    ∀ u ∈ [[DbWrite.insertEvent e]], u.length = 1 := by
  constructor
  · simp [Trace.eventCount, DbWrite.eventTypeOf, hty]
  · intro u hu
    simp only [List.mem_singleton] at hu
    rw [hu]; rfl

/-- Prepending a row-free segment preserves the single-row property. -/
theorem singleRow_append_left (ty : String) (t1 t2 : Trace)
    (h1 : TraceOk ty t1)
    (h2 : Trace.eventCount t2 ty = 1 ∧ ∀ u ∈ t2, u.length = 1) :
    Trace.eventCount (t1 ++ t2) ty = 1 ∧
    ∀ u ∈ t1 ++ t2, u.length = 1 := by
  constructor
  · rw [eventCount_append, h1.1, h2.1]
  · intro u hu
    rcases List.mem_append.mp hu with h | h
    exacts [h1.2 u h, h2.2 u h]

/-- A one-write transaction unit cannot hold both a ledger append and a
state mutation. -/
theorem no_mixed_unit (u : List DbWrite) (hu : u.length = 1) :
    ¬ ((u.any DbWrite.isLedgerAppend) ∧ (u.any DbWrite.isStateMutation)) := by
  cases u with
  | nil => simp at hu
  | cons x t =>
    cases t with
    | nil =>
      rintro ⟨h1, h2⟩
      simp only [List.any_cons, List.any_nil, Bool.or_false] at h1 h2
      cases x <;> simp [DbWrite.isLedgerAppend, DbWrite.isStateMutation] at h1 h2
    | cons y t2 => simp at hu

/-- The title-grant attempt appends no ledger row, in singleton units. -/
theorem tryGrantTitle_traceOk (ty : String) (w : World)
    (rootId titleId : String) (sourceId : Option String) :
    TraceOk ty (tryGrantTitle w rootId titleId sourceId).2.2 := by
  simp only [tryGrantTitle]
  split
  · exact traceOk_nil ty
  · refine ⟨?_, ?_⟩ <;> simp [Trace.eventCount, DbWrite.eventTypeOf]

/-- The level cascade writes only `user_titles` rows — no ledger rows, in
singleton units. -/
theorem xpCascade_traceOk (ty : String) (xp : Int) (rootId : String)
    (fuel : Nat) :
    ∀ (w : World) (lvl : Nat) (w2 : World) (L : Nat) (ts : List String)
      (tr : Trace),
    xpCascade w rootId xp fuel lvl = some (w2, L, ts, tr) → TraceOk ty tr := by
  induction fuel with
  | zero =>
    intro w lvl w2 L ts tr h
    simp only [xpCascade] at h
    split at h
    · rw [Option.some.injEq, Prod.mk.injEq, Prod.mk.injEq, Prod.mk.injEq] at h
      obtain ⟨-, -, -, htr⟩ := h
      rw [← htr]
      exact traceOk_nil ty
    · exact absurd h (by simp)
  | succ n ih =>
    intro w lvl w2 L ts tr h
    simp only [xpCascade] at h
    split at h
    · rw [Option.some.injEq, Prod.mk.injEq, Prod.mk.injEq, Prod.mk.injEq] at h
      obtain ⟨-, -, -, htr⟩ := h
      rw [← htr]
      exact traceOk_nil ty
    · cases hlt : levelTitle (lvl + 1) with
      | some t =>
        rw [hlt] at h
        split at h
        · exact absurd h (by simp)
        · rename_i w3 lvlF titles tr2 hinner
          rw [Option.some.injEq, Prod.mk.injEq, Prod.mk.injEq, Prod.mk.injEq] at h
          obtain ⟨-, -, -, htr⟩ := h
          rw [← htr]
          exact traceOk_append ty _ _
            (tryGrantTitle_traceOk ty w rootId t none) (ih _ _ _ _ _ _ hinner)
      | none =>
        rw [hlt] at h
        split at h
        · exact absurd h (by simp)
        · rename_i w3 lvlF titles tr2 hinner
          rw [Option.some.injEq, Prod.mk.injEq, Prod.mk.injEq, Prod.mk.injEq] at h
          obtain ⟨-, -, -, htr⟩ := h
          rw [← htr]
          exact traceOk_append ty _ _ (traceOk_nil ty) (ih _ _ _ _ _ _ hinner)

/-- XP application writes titles and one root-row update — no ledger rows,
in singleton units. -/
theorem applyXp_traceOk (ty : String) (w : World) (fuel : Nat)
    (rootId : String) (cXp : Int) (cLvl : Nat) (delta : Int) (w1 : World)
    (res : ApplyXpResult) (tr : Trace)
    (h : applyXp w fuel rootId cXp cLvl delta = some (w1, res, tr)) :
    TraceOk ty tr := by
  simp only [applyXp] at h
  split at h
  · exact absurd h (by simp)
  · rename_i w2 newLevel titles tr2 hcas
    rw [Option.some.injEq, Prod.mk.injEq, Prod.mk.injEq] at h
    obtain ⟨-, -, htr⟩ := h
    rw [← htr]
    refine traceOk_append ty _ _ (xpCascade_traceOk ty _ _ _ _ _ _ _ _ _ hcas) ?_
    refine ⟨?_, ?_⟩ <;> simp [Trace.eventCount, DbWrite.eventTypeOf]

/-- A cache grant writes the cache row and one `loot.cache_granted` ledger
row — no row of any other event type, in singleton units. -/
theorem grantCache_traceOk (ty : String) (w : World)
    (rootId cacheType : String) (sourceId : Option String) (trigger : String)
    (level : Nat) (u : Q) (hty : ty ≠ "loot.cache_granted") :
    TraceOk ty (grantCache w rootId cacheType sourceId trigger level u).2.2 := by
  simp only [grantCache, World.logEvent]
  refine ⟨?_, ?_⟩
  · simp [Trace.eventCount, DbWrite.eventTypeOf, Ne.symm hty]
  · simp

/-- Granting a title changes at most the `user_titles` table: users and
configuration are untouched. -/
theorem tryGrantTitle_frame (w : World) (rootId titleId : String)
    (sourceId : Option String) :
    (tryGrantTitle w rootId titleId sourceId).1.users = w.users ∧
    (tryGrantTitle w rootId titleId sourceId).1.config = w.config := by
  simp only [tryGrantTitle]
  split <;> exact ⟨rfl, rfl⟩

/-- Characterization of the `while (newXp >= threshold)` loop: when it
terminates at level `L`, the total XP is below the level-`L` threshold and
at or above the threshold of every level passed on the way up; the users
table and configuration are untouched by the loop (it only inserts
`user_titles` rows). -/
theorem xpCascade_spec (xp : Int) (rootId : String) (fuel : Nat) :
    ∀ (w : World) (lvl L : Nat) (w2 : World) (ts : List String) (tr : Trace),
    xpCascade w rootId xp fuel lvl = some (w2, L, ts, tr) →
    lvl ≤ L ∧ xp < levelThreshold w.config L ∧
    (∀ k, lvl ≤ k → k < L → levelThreshold w.config k ≤ xp) ∧
    w2.users = w.users ∧ w2.config = w.config := by
  induction fuel with
  | zero =>
    intro w lvl L w2 ts tr h
    simp only [xpCascade] at h
    split at h
    · rename_i hlt
      rw [Option.some.injEq, Prod.mk.injEq, Prod.mk.injEq, Prod.mk.injEq] at h
      obtain ⟨hw, hL, -, -⟩ := h
      subst hw
      subst hL
      exact ⟨Nat.le_refl _, hlt, fun k hk1 hk2 => absurd (hk1.trans_lt hk2)
        (Nat.lt_irrefl _), rfl, rfl⟩
    · exact absurd h (by simp)
  | succ n ih =>
    intro w lvl L w2 ts tr h
    simp only [xpCascade] at h
    split at h
    · rename_i hlt
      rw [Option.some.injEq, Prod.mk.injEq, Prod.mk.injEq, Prod.mk.injEq] at h
      obtain ⟨hw, hL, -, -⟩ := h
      subst hw
      subst hL
      exact ⟨Nat.le_refl _, hlt, fun k hk1 hk2 => absurd (hk1.trans_lt hk2)
        (Nat.lt_irrefl _), rfl, rfl⟩
    · rename_i hge
      cases hlt : levelTitle (lvl + 1) with
      | some t =>
        rw [hlt] at h
        split at h
        · exact absurd h (by simp)
        · rename_i w3 lvlF titles tr2 hinner
          rw [Option.some.injEq, Prod.mk.injEq, Prod.mk.injEq, Prod.mk.injEq] at h
          obtain ⟨hw, hL, -, -⟩ := h
          have hframe := tryGrantTitle_frame w rootId t none
          obtain ⟨h1, h2, h3, h4, h5⟩ := ih _ _ _ _ _ _ hinner
          rw [hframe.2] at h2 h3 h5
          subst hw
          rw [← hL]
          refine ⟨Nat.le_of_succ_le h1, h2, ?_, by rw [h4, hframe.1], h5⟩
          intro k hk1 hk2
          rcases Nat.eq_or_lt_of_le hk1 with rfl | hk1s
          · exact Int.not_lt.mp hge
          · exact h3 k hk1s hk2
      | none =>
        rw [hlt] at h
        split at h
        · exact absurd h (by simp)
        · rename_i w3 lvlF titles tr2 hinner
          rw [Option.some.injEq, Prod.mk.injEq, Prod.mk.injEq, Prod.mk.injEq] at h
          obtain ⟨hw, hL, -, -⟩ := h
          obtain ⟨h1, h2, h3, h4, h5⟩ := ih _ _ _ _ _ _ hinner
          subst hw
          rw [← hL]
          refine ⟨Nat.le_of_succ_le h1, h2, ?_, h4, h5⟩
          intro k hk1 hk2
          rcases Nat.eq_or_lt_of_le hk1 with rfl | hk1s
          · exact Int.not_lt.mp hge
          · exact h3 k hk1s hk2

/-- C2 counterexample: the E2 scenario of the spec (root seeded at
`fate_xp=195, fate_level=1`, default config, normal session worth 100 XP)
ends at `fate_xp=295, fate_level=4` with `level_up {from:1, to:4}` — not
at level 2 — because the loop compares the total XP against each level's
absolute threshold instead of the claim's cumulative sum: the reached
level 4 does not satisfy `sum_{k=1}^{3} floor(200*1.2^(k-1)) ≤ 295`
(728 > 295), and the claim's largest such `L` is 2. -/
theorem C2_counterexample :
    (ingestWorld (ingest e2World 10 [0] e2Dto srcX)).map
        (fun w1 => (w1.findUser "root-1").map
          (fun (u : RootIdentity) => (u.fateXp, u.fateLevel))) =
      some (some (295, 4)) ∧
    (ingestResp (ingest e2World 10 [0] e2Dto srcX)).map
        (fun (r : IngestResponse) => r.changes_applied.level_up) =
      some (some (1, 4)) ∧
    ¬ (specCumulativeNeed defaultConfig 4 ≤ 295) ∧
    specCumulativeNeed defaultConfig 2 ≤ 295 ∧
    ¬ (specCumulativeNeed defaultConfig 3 ≤ 295) := by
  decide

/-- C2 (amended): for every configuration and every XP delta, when the
cascade of `applyXp` terminates the post-state total XP is the old XP plus
the delta, and the post-state level is the unique `L ≥` the pre-level with
`xp < floor(baseT * mult^(L-1))` and `floor(baseT * mult^(k-1)) ≤ xp` for
every level `k` crossed (pre-level `≤ k < L`) — per-level absolute
thresholds against the running total, not the cumulative sum of the claim;
a `level_up {from, to}` record is produced exactly when the level rose,
and the new XP and level are persisted on the root row. -/
theorem C2_level_cascade (w : World) (fuel : Nat) (rootId : String)
    (cXp : Int) (cLvl : Nat) (delta : Int) (w1 : World)
    (res : ApplyXpResult) (tr : Trace) (user : RootIdentity)
    (h : applyXp w fuel rootId cXp cLvl delta = some (w1, res, tr))
    (hu : w.findUser rootId = some user) :
    res.newXp = cXp + delta ∧
    cLvl ≤ res.newLevel ∧
    res.newXp < levelThreshold w.config res.newLevel ∧
    (∀ k, cLvl ≤ k → k < res.newLevel → levelThreshold w.config k ≤ res.newXp) ∧
    res.levelUp = (if cLvl < res.newLevel then some (cLvl, res.newLevel) else none) ∧
    w1.findUser rootId =
      some { user with fateXp := cXp + delta, fateLevel := res.newLevel } := by
  simp only [applyXp] at h
  split at h
  · exact absurd h (by simp)
  · rename_i w2 newLevel titles tr2 hcas
    rw [Option.some.injEq, Prod.mk.injEq, Prod.mk.injEq] at h
    obtain ⟨hw1, hres, -⟩ := h
    obtain ⟨h1, h2, h3, h4, h5⟩ := xpCascade_spec (cXp + delta) rootId fuel
      w cLvl newLevel w2 titles tr2 hcas
    subst hw1
    rw [← hres]
    refine ⟨rfl, h1, h2, h3, rfl, ?_⟩
    have hfu2 : (World.updateUser w2 rootId
        (fun u => { u with fateXp := cXp + delta, fateLevel := newLevel })).findUser
        rootId = ((w2.findUser rootId).map
          (fun u => { u with fateXp := cXp + delta, fateLevel := newLevel })) :=
      findUser_updateUser w2 rootId _ (fun _ => rfl)
    rw [hfu2]
    have : w2.findUser rootId = some user := by
      simp only [World.findUser] at hu ⊢
      rw [h4]
      exact hu
    rw [this]
    rfl

/-- Witness for C2 at the E2 seed: 195 XP + 100 XP lands at 295 XP, level
4, strictly below the level-4 threshold 345 and at or above the
thresholds 200, 240, 288 of levels 1-3. -/
theorem C2_level_cascade_witness :
    ∃ w1 res tr, applyXp e2World 10 "root-1" 195 1 100 = some (w1, res, tr) ∧
      res.newXp = 295 ∧ res.newLevel = 4 ∧
      res.newXp < levelThreshold e2World.config res.newLevel ∧
      (∀ k, 1 ≤ k → k < res.newLevel →
        levelThreshold e2World.config k ≤ res.newXp) := by
  refine ⟨_, _, _, rfl, by decide, by decide, ?_, ?_⟩
  · exact (C2_level_cascade e2World 10 "root-1" 195 1 100 _ _ _
      { id := "root-1", heroName := "Mira", fateXp := 195, fateLevel := 1
        status := "active" }
      rfl (by decide)).2.2.1
  · exact (C2_level_cascade e2World 10 "root-1" 195 1 100 _ _ _
      { id := "root-1", heroName := "Mira", fateXp := 195, fateLevel := 1
        status := "active" }
      rfl (by decide)).2.2.2.1

/-- Every rejection of the session-completed handler is a 400 BadRequest. -/
theorem handleSessionCompleted_err_status (w : World) (fuel : Nat)
    (rng : List Q) (dto : IngestDto) (src : ResolvedSource)
    (user : RootIdentity) (e : ApiError)
    (h : handleSessionCompleted w fuel rng dto src user =
      some (Except.error e)) : e.status = 400 := by
  simp only [handleSessionCompleted] at h
  split at h
  · split at h
    · rw [Option.some.injEq, Except.error.injEq] at h
      rw [← h]; rfl
    · split at h
      · exact absurd h (by simp)
      · exact absurd h (by simp)
  · rw [Option.some.injEq, Except.error.injEq] at h
    rw [← h]; rfl

/-- Every rejection of the xp-granted handler is a 400 BadRequest. -/
theorem handleXpGranted_err_status (w : World) (fuel : Nat)
    (dto : IngestDto) (src : ResolvedSource) (user : RootIdentity)
    (e : ApiError)
    (h : handleXpGranted w fuel dto src user = some (Except.error e)) :
    e.status = 400 := by
  simp only [handleXpGranted] at h
  split at h
  · rw [Option.some.injEq, Except.error.injEq] at h
    rw [← h]; rfl
  · split at h
    · exact absurd h (by simp)
    · exact absurd h (by simp)

/-- Every rejection of the node-completed handler is a 400 BadRequest. -/
theorem handleNodeCompleted_err_status (w : World) (fuel : Nat)
    (dto : IngestDto) (src : ResolvedSource) (user : RootIdentity)
    (e : ApiError)
    (h : handleNodeCompleted w fuel dto src user = some (Except.error e)) :
    e.status = 400 := by
  simp only [handleNodeCompleted] at h
  split at h
  · rw [Option.some.injEq, Except.error.injEq] at h
    rw [← h]; rfl
  · split at h
    · exact absurd h (by simp)
    · exact absurd h (by simp)

/-- Every rejection of the title-granted handler is a 400 BadRequest. -/
theorem handleTitleGranted_err_status (w : World) (dto : IngestDto)
    (src : ResolvedSource) (user : RootIdentity) (e : ApiError)
    (h : handleTitleGranted w dto src user = some (Except.error e)) :
    e.status = 400 := by
  simp only [handleTitleGranted] at h
  split at h
  · rw [Option.some.injEq, Except.error.injEq] at h
    rw [← h]; rfl
  · split at h
    · rw [Option.some.injEq, Except.error.injEq] at h
      rw [← h]; rfl
    · split at h
      · rw [Option.some.injEq, Except.error.injEq] at h
        rw [← h]; rfl
      · exact absurd h (by simp)

/-- Every rejection of the fate-marker handler is a 400 BadRequest. -/
theorem handleFateMarker_err_status (w : World) (dto : IngestDto)
    (src : ResolvedSource) (user : RootIdentity) (e : ApiError)
    (h : handleFateMarker w dto src user = some (Except.error e)) :
    e.status = 400 := by
  simp only [handleFateMarker] at h
  split at h
  · rw [Option.some.injEq, Except.error.injEq] at h
    rw [← h]; rfl
  · split at h
    · rw [Option.some.injEq, Except.error.injEq] at h
      rw [← h]; rfl
    · exact absurd h (by simp)

/-- With the root present but no active consent link, ingest rejects with
the 403 Forbidden consent error path before any dispatch. -/
theorem ingest_forbidden_of_no_link (w : World) (fuel : Nat) (rng : List Q)
    (dto : IngestDto) (src : ResolvedSource) (user : RootIdentity)
    (hu : w.findUser dto.root_id = some user)
    (hnl : validateActiveLink w dto.root_id src.id = none) :
    ingest w fuel rng dto src =
      some (Except.error (ApiError.forbidden
        "No active consent link for this user and source")) := by
  simp only [ingest, hu, hnl]

/-- C1 counterexample: a request with an active SourceLink for its (root,
source) pair but an unsupported event type does not succeed — refuting
the claimed equivalence between success and the presence of an active
link. -/
theorem C1_counterexample :
    validateActiveLink freshLinkedWorld "root-1" "src-x" ≠ none ∧
    ingest freshLinkedWorld 10 [] bogusDto srcX =
      some (Except.error
        (ApiError.badRequest "Unknown event type: progression.bogus")) := by
  decide

/-- C1 (amended): the consent gate is one-directional.  When the root
exists and no active SourceLink matches (root, source), ingest fails with
the 403 Forbidden consent error (thrown before any write); every
successful ingest implies an active link existed at request time; with an
active link the request is never rejected with a 403 (remaining failures
are 400/404 validation errors); and after revoking the only active link
of the pair, the very next ingest for it fails with the 403 consent
error. -/
theorem C1_consent_gate (w : World) (fuel : Nat) (rng : List Q)
    (dto : IngestDto) (src : ResolvedSource) :
    ((∃ user, w.findUser dto.root_id = some user) →
      validateActiveLink w dto.root_id src.id = none →
      ingest w fuel rng dto src =
        some (Except.error (ApiError.forbidden
          "No active consent link for this user and source"))) ∧
    (∀ w1 tr resp, ingest w fuel rng dto src = some (Except.ok (w1, tr, resp)) →
      validateActiveLink w dto.root_id src.id ≠ none) ∧
    (validateActiveLink w dto.root_id src.id ≠ none →
      ∀ e, ingest w fuel rng dto src = some (Except.error e) → e.status ≠ 403) ∧
    (∀ linkId rdto w2, revokeLink w dto.root_id linkId rdto = Except.ok w2 →
      (∀ l ∈ w.links, l.rootId = dto.root_id → l.sourceId = src.id →
        l.status = "active" → l.id = linkId) →
      ∀ user, w2.findUser dto.root_id = some user →
      ingest w2 fuel rng dto src =
        some (Except.error (ApiError.forbidden
          "No active consent link for this user and source"))) := by
  refine ⟨?_, ?_, ?_, ?_⟩
  · rintro ⟨user, hu⟩ hnl
    exact ingest_forbidden_of_no_link w fuel rng dto src user hu hnl
  · intro w1 tr resp hok
    cases hfu : w.findUser dto.root_id with
    | none =>
      simp only [ingest, hfu] at hok
      exact absurd hok (by simp)
    | some user =>
      cases hval : validateActiveLink w dto.root_id src.id with
      | none =>
        simp only [ingest, hfu, hval] at hok
        exact absurd hok (by simp)
      | some pr => simp [hval]
  · intro hlink e he
    cases hfu : w.findUser dto.root_id with
    | none =>
      simp only [ingest, hfu] at he
      rw [Option.some.injEq, Except.error.injEq] at he
      rw [← he]
      simp [ApiError.status]
    | some user =>
      cases hval : validateActiveLink w dto.root_id src.id with
      | none => exact absurd hval hlink
      | some pr =>
        simp only [ingest, hfu, hval] at he
        split at he
        · have := handleSessionCompleted_err_status _ _ _ _ _ _ _ he
          omega
        · split at he
          · have := handleXpGranted_err_status _ _ _ _ _ _ he
            omega
          · split at he
            · have := handleNodeCompleted_err_status _ _ _ _ _ _ he
              omega
            · split at he
              · have := handleTitleGranted_err_status _ _ _ _ _ he
                omega
              · split at he
                · have := handleFateMarker_err_status _ _ _ _ _ he
                  omega
                · rw [Option.some.injEq, Except.error.injEq] at he
                  rw [← he]
                  simp [ApiError.status]
  · intro linkId rdto w2 hrev huniq user hu2
    simp only [revokeLink] at hrev
    split at hrev
    · exact absurd hrev (by simp)
    · rename_i link hfindl
      split at hrev
      · exact absurd hrev (by simp)
      · rw [Except.ok.injEq] at hrev
        have hval2 : validateActiveLink w2 dto.root_id src.id = none := by
          rw [← hrev]
          simp only [validateActiveLink]
          have hfn : (((World.logEvent
              { w with links := w.links.map (fun (l : SourceLink) =>
                  if l.id = linkId then { l with status := "revoked" } else l) }
              dto.root_id "source.link_revoked" (some link.sourceId)).2).links.find?
              (fun l => l.rootId = dto.root_id ∧ l.sourceId = src.id ∧
                l.status = "active")) = none := by
            show ((w.links.map _).find? _) = none
            rw [List.find?_eq_none]
            intro l hl hp
            obtain ⟨l0, hl0, heq⟩ := List.mem_map.mp hl
            rw [decide_eq_true_eq] at hp
            obtain ⟨hpr, hps, hpa⟩ := hp
            by_cases hid : l0.id = linkId
            · rw [if_pos hid] at heq
              rw [← heq] at hpa
              exact absurd hpa (by simp)
            · rw [if_neg hid] at heq
              subst heq
              exact hid (huniq l0 hl0 hpr hps hpa)
          rw [hfn]
          rfl
        exact ingest_forbidden_of_no_link w2 fuel rng dto src user hu2 hval2

/-- Witness for C1: with the consent link list emptied, an xp-grant for
the existing root is rejected with the 403 consent error; and after
revoking the single active link of the fixture, the very next xp-grant is
rejected the same way. -/
theorem C1_consent_gate_witness :
    ingest { freshLinkedWorld with links := [] } 10 [] xpDto srcX =
      some (Except.error (ApiError.forbidden
        "No active consent link for this user and source")) ∧
    ingest
        { freshLinkedWorld with
          links := [{ id := "link-1", rootId := "root-1", sourceId := "src-x"
                      scope := "xp fate_markers titles", status := "revoked" }]
          events := [{ id := 0, rootId := "root-1"
                       eventType := "source.link_revoked"
                       sourceId := some "src-x" }]
          nextId := 1 } 10 [] xpDto srcX =
      some (Except.error (ApiError.forbidden
        "No active consent link for this user and source")) := by
  constructor
  · exact (C1_consent_gate { freshLinkedWorld with links := [] } 10 [] xpDto
      srcX).1
      ⟨{ id := "root-1", heroName := "Mira", fateXp := 0, fateLevel := 1
         status := "active" }, by decide⟩ (by decide)
  · exact (C1_consent_gate freshLinkedWorld 10 [] xpDto srcX).2.2.2
      "link-1" {} _ (by decide) (by decide)
      { id := "root-1", heroName := "Mira", fateXp := 0, fateLevel := 1
        status := "active" } (by decide)

/-- The xp-granted handler emits exactly one ledger row of the request's
type, each write in its own unit. -/
theorem handleXpGranted_trace (w : World) (fuel : Nat) (dto : IngestDto)
    (src : ResolvedSource) (user : RootIdentity) (w1 : World) (tr : Trace)
    (resp : IngestResponse)
    (h : handleXpGranted w fuel dto src user = some (Except.ok (w1, tr, resp))) :
    Trace.eventCount tr dto.event_type = 1 ∧ ∀ u ∈ tr, u.length = 1 := by
  simp only [handleXpGranted, World.logEvent] at h
  split at h
  · exact absurd h (by simp)
  · split at h
    · exact absurd h (by simp)
    · rename_i w2 changes tr1 happ
      rw [Option.some.injEq, Except.ok.injEq, Prod.mk.injEq, Prod.mk.injEq] at h
      obtain ⟨-, htr, -⟩ := h
      rw [← htr]
      refine singleRow_append_left dto.event_type _ _ ?_ (singleRow_top _ _ ?_)
      · exact applyXp_traceOk dto.event_type _ _ _ _ _ _ _ _ _ happ
      · rfl

/-- The node-completed handler emits exactly one ledger row of the
request's type, each write in its own unit. -/
theorem handleNodeCompleted_trace (w : World) (fuel : Nat) (dto : IngestDto)
    (src : ResolvedSource) (user : RootIdentity) (w1 : World) (tr : Trace)
    (resp : IngestResponse)
    (h : handleNodeCompleted w fuel dto src user =
      some (Except.ok (w1, tr, resp))) :
    Trace.eventCount tr dto.event_type = 1 ∧ ∀ u ∈ tr, u.length = 1 := by
  simp only [handleNodeCompleted, World.logEvent] at h
  split at h
  · exact absurd h (by simp)
  · split at h
    · exact absurd h (by simp)
    · rename_i w2 changes tr1 happ
      rw [Option.some.injEq, Except.ok.injEq, Prod.mk.injEq, Prod.mk.injEq] at h
      obtain ⟨-, htr, -⟩ := h
      rw [← htr]
      refine singleRow_append_left dto.event_type _ _ ?_ (singleRow_top _ _ ?_)
      · exact applyXp_traceOk dto.event_type _ _ _ _ _ _ _ _ _ happ
      · rfl

/-- The title-granted handler emits exactly one ledger row of the
request's type, each write in its own unit. -/
theorem handleTitleGranted_trace (w : World) (dto : IngestDto)
    (src : ResolvedSource) (user : RootIdentity) (w1 : World) (tr : Trace)
    (resp : IngestResponse)
    (h : handleTitleGranted w dto src user = some (Except.ok (w1, tr, resp))) :
    Trace.eventCount tr dto.event_type = 1 ∧ ∀ u ∈ tr, u.length = 1 := by
  simp only [handleTitleGranted, World.logEvent] at h
  split at h
  · exact absurd h (by simp)
  · split at h
    · exact absurd h (by simp)
    · split at h
      · exact absurd h (by simp)
      · rw [Option.some.injEq, Except.ok.injEq, Prod.mk.injEq, Prod.mk.injEq] at h
        obtain ⟨-, htr, -⟩ := h
        rw [← htr]
        refine singleRow_append_left dto.event_type _ _ ?_ (singleRow_top _ _ ?_)
        · exact tryGrantTitle_traceOk dto.event_type _ _ _ _
        · rfl

/-- The fate-marker handler emits exactly one ledger row of the request's
type, each write in its own unit. -/
theorem handleFateMarker_trace (w : World) (dto : IngestDto)
    (src : ResolvedSource) (user : RootIdentity) (w1 : World) (tr : Trace)
    (resp : IngestResponse)
    (h : handleFateMarker w dto src user = some (Except.ok (w1, tr, resp))) :
    Trace.eventCount tr dto.event_type = 1 ∧ ∀ u ∈ tr, u.length = 1 := by
  simp only [handleFateMarker, World.logEvent] at h
  split at h
  · exact absurd h (by simp)
  · split at h
    · exact absurd h (by simp)
    · rw [Option.some.injEq, Except.ok.injEq, Prod.mk.injEq, Prod.mk.injEq] at h
      obtain ⟨-, htr, -⟩ := h
      rw [← htr]
      refine ⟨?_, ?_⟩
      · simp [Trace.eventCount, DbWrite.eventTypeOf]
      · intro u hu
        simp only [List.mem_cons, List.not_mem_nil, or_false] at hu
        rcases hu with rfl | rfl <;> rfl

/-- The session-completed handler emits exactly one ledger row of the
request's type (the cache side-grants log only `loot.cache_granted` rows),
each write in its own unit. -/
theorem handleSessionCompleted_trace (w : World) (fuel : Nat) (rng : List Q)
    (dto : IngestDto) (src : ResolvedSource) (user : RootIdentity)
    (w1 : World) (tr : Trace) (resp : IngestResponse)
    (hne : dto.event_type ≠ "loot.cache_granted")
    (h : handleSessionCompleted w fuel rng dto src user =
      some (Except.ok (w1, tr, resp))) :
    Trace.eventCount tr dto.event_type = 1 ∧ ∀ u ∈ tr, u.length = 1 := by
  simp only [handleSessionCompleted, World.logEvent] at h
  repeat' split at h
  all_goals
    simp only [Option.some.injEq, Except.ok.injEq, Prod.mk.injEq, reduceCtorEq] at h
  all_goals obtain ⟨-, htr, -⟩ := h
  all_goals rw [← htr]
  all_goals
    refine traceOk_topCount dto.event_type _
      (traceOk_append _ _ _
        (traceOk_append _ _ _
          (traceOk_append _ _ _ ?_ ?_) ?_) ?_) _ ?_
  all_goals
    first
      | rfl
      | exact applyXp_traceOk dto.event_type _ _ _ _ _ _ _ _ _ (by assumption)
      | exact tryGrantTitle_traceOk dto.event_type _ _ _ _
      | exact grantCache_traceOk dto.event_type _ _ _ _ _ _ _ hne
      | exact traceOk_nil _

/-- C3: every successful ingest request appends exactly one top-level
ledger row of the request's event type, but every write unit in its
transaction trace is a singleton — each `await this.prisma...` call commits
on its own, and no unit contains both the ledger append and a state
mutation.  The handlers never open a `$transaction`, so the atomicity the
claim asserts does not hold: the rows are visible one by one. -/
theorem C3_single_ledger_row (w : World) (fuel : Nat) (rng : List Q)
    (dto : IngestDto) (src : ResolvedSource) (w1 : World) (tr : Trace)
    (resp : IngestResponse)
    (h : ingest w fuel rng dto src = some (Except.ok (w1, tr, resp))) :
    Trace.eventCount tr dto.event_type = 1 ∧
    ∀ u ∈ tr, u.length = 1 ∧
      ¬ ((u.any DbWrite.isLedgerAppend) ∧ (u.any DbWrite.isStateMutation)) := by
  simp only [ingest] at h
  split at h
  · exact absurd h (by simp)
  · rename_i user huser
    split at h
    · exact absurd h (by simp)
    · split at h
      · rename_i hty
        rcases handleSessionCompleted_trace w fuel rng dto src user w1 tr resp
          (by rw [hty]; decide) h with ⟨hc, hu⟩
        exact ⟨hc, fun u hm => ⟨hu u hm, no_mixed_unit u (hu u hm)⟩⟩
      · split at h
        · rcases handleXpGranted_trace w fuel dto src user w1 tr resp h with ⟨hc, hu⟩
          exact ⟨hc, fun u hm => ⟨hu u hm, no_mixed_unit u (hu u hm)⟩⟩
        · split at h
          · rcases handleNodeCompleted_trace w fuel dto src user w1 tr resp h with ⟨hc, hu⟩
            exact ⟨hc, fun u hm => ⟨hu u hm, no_mixed_unit u (hu u hm)⟩⟩
          · split at h
            · rcases handleTitleGranted_trace w dto src user w1 tr resp h with ⟨hc, hu⟩
              exact ⟨hc, fun u hm => ⟨hu u hm, no_mixed_unit u (hu u hm)⟩⟩
            · split at h
              · rcases handleFateMarker_trace w dto src user w1 tr resp h with ⟨hc, hu⟩
                exact ⟨hc, fun u hm => ⟨hu u hm, no_mixed_unit u (hu u hm)⟩⟩
              · exact absurd h (by simp)

/-- C3 witness: the concrete `progression.xp_granted` ingest on the fresh
linked world succeeds and its trace has exactly one ledger row, all units
singleton. -/
theorem C3_single_ledger_row_witness :
    ∃ w1 tr resp,
      ingest freshLinkedWorld 10 [] xpDto srcX = some (Except.ok (w1, tr, resp)) ∧
      (Trace.eventCount tr xpDto.event_type = 1 ∧
        ∀ u ∈ tr, u.length = 1 ∧
          ¬ ((u.any DbWrite.isLedgerAppend) ∧ (u.any DbWrite.isStateMutation))) :=
  ⟨_, _, _, rfl,
    C3_single_ledger_row freshLinkedWorld 10 [] xpDto srcX _ _ _ rfl⟩

/-- C3 counterexample: the successful `progression.xp_granted` ingest
commits the XP update and its ledger row as two distinct single-write
implicit transactions — in the trace below no unit holds both the ledger
append and the state mutation, so the two are never atomic, contrary to
the claim that they commit in the same database transaction. -/
theorem C3_counterexample :
    ingestTrace (ingest freshLinkedWorld 10 [] xpDto srcX) =
      some [[DbWrite.updateRootXp "root-1" 1 1],
        [DbWrite.insertEvent { id := 0, rootId := "root-1",
                               eventType := "progression.xp_granted",
                               sourceId := some "src-x" }]] ∧
    ¬ ∃ u ∈ [[DbWrite.updateRootXp "root-1" 1 1],
        [DbWrite.insertEvent { id := 0, rootId := "root-1",
                               eventType := "progression.xp_granted",
                               sourceId := some "src-x" }]],
      ((u.any DbWrite.isLedgerAppend) ∧ (u.any DbWrite.isStateMutation)) := by
  decide

/-- C4 counterexample: replaying the very assertion that was just verified
(stored counter now 6 > 0 and the replayed `newCounter` 6 is not strictly
greater) fails with the 400 BadRequest `Unknown or already-used challenge`
— challenge consumption fires before the counter check — not with the 401
Unauthorized the claim states. -/
theorem C4_counterexample :
    (authOkWorld (verifyAuthentication c4World c4Assertion "tok-1")).map
        (fun w1 => verifyAuthentication w1 c4Assertion "tok-2") =
      some (Except.error
        (ApiError.badRequest "Unknown or already-used challenge")) ∧
    (authOkWorld (verifyAuthentication c4World c4Assertion "tok-1")).map
        (fun w1 => (w1.authKeys.find?
          (fun k => k.credentialId = "cred-1")).map AuthKey.counter) =
      some (some 6) ∧
    (ApiError.badRequest "Unknown or already-used challenge").status = 400 ∧
    (400 : Nat) ≠ 401 := by
  decide

/-- C4 (amended): a replayed assertion fails, but through the challenge
gate: once its challenge has been consumed the attempt is rejected with
the 400 BadRequest `Unknown or already-used challenge`; the Unauthorized
(401) rejection of the claim occurs when the assertion carries a fresh
valid challenge but its `newCounter` is not strictly greater than the
stored counter (> 0) — the cloning signal of the spec. -/
theorem C4_counter_replay (w : World) (a : Assertion) (tok : String)
    (authKey : AuthKey) (root : RootIdentity)
    (hkey : w.authKeys.find? (fun k => k.credentialId = a.credentialId) =
      some authKey)
    (hkact : authKey.status = "active")
    (hroot : w.findUser authKey.rootId = some root)
    (hract : root.status = "active") :
    ((∀ ch, a.clientChallenge = some ch →
        w.challenges.find? (fun c => c.challenge = ch) = none) →
      a.clientChallenge ≠ none →
      verifyAuthentication w a tok =
        Except.error (ApiError.badRequest "Unknown or already-used challenge")) ∧
    (∀ rec w1, findAndConsumeChallenge w a.clientChallenge "authentication" =
        Except.ok (rec, w1) →
      0 < authKey.counter → a.newCounter ≤ authKey.counter →
      verifyAuthentication w a tok =
        Except.error (ApiError.unauthorized "Authentication verification failed")) := by
  have hkne : ¬ authKey.status ≠ "active" := by simp [hkact]
  have hrne : ¬ root.status ≠ "active" := by simp [hract]
  constructor
  · intro habsent hsome
    cases hch : a.clientChallenge with
    | none => exact absurd hch hsome
    | some ch =>
      simp only [verifyAuthentication, hkey]
      rw [if_neg hkne]
      simp only [hroot]
      rw [if_neg hrne]
      simp only [findAndConsumeChallenge, hch, habsent ch hch]
  · intro rec w1 hcons hpos hle
    simp only [verifyAuthentication, hkey]
    rw [if_neg hkne]
    simp only [hroot]
    rw [if_neg hrne]
    simp only [hcons]
    have hver : webauthnVerifyAssertion authKey.counter a.newCounter
        a.sigValid = false := by
      have h0 : ¬ authKey.counter = 0 := by omega
      have h1 : ¬ authKey.counter < a.newCounter := by omega
      simp [webauthnVerifyAssertion, h0, h1]
    rw [if_pos (by rw [hver]; rfl)]

/-- Witness for C4: the replayed assertion against a state whose challenge
store is empty yields the 400, and a stale-counter assertion (counter 5
asserted while 5 is stored) with a fresh valid challenge yields the 401. -/
theorem C4_counter_replay_witness :
    verifyAuthentication { c4World with challenges := [] } c4Assertion "tok" =
      Except.error (ApiError.badRequest "Unknown or already-used challenge") ∧
    verifyAuthentication c4World
        { credentialId := "cred-1", clientChallenge := some "ch-1"
          newCounter := 5, sigValid := true } "tok" =
      Except.error (ApiError.unauthorized "Authentication verification failed") := by
  constructor
  · exact (C4_counter_replay { c4World with challenges := [] } c4Assertion "tok"
      { id := "key-1", rootId := "root-1", credentialId := "cred-1"
        counter := 5, status := "active" }
      { id := "root-1", heroName := "Mira", fateXp := 0, fateLevel := 1
        status := "active" }
      (by decide) rfl (by decide) rfl).1
      (fun ch _ => rfl) (by decide)
  · exact (C4_counter_replay c4World
      { credentialId := "cred-1", clientChallenge := some "ch-1"
        newCounter := 5, sigValid := true } "tok"
      { id := "key-1", rootId := "root-1", credentialId := "cred-1"
        counter := 5, status := "active" }
      { id := "root-1", heroName := "Mira", fateXp := 0, fateLevel := 1
        status := "active" }
      (by decide) rfl (by decide) rfl).2
      { id := 1, challenge := "ch-1", challengeType := "authentication"
        rootId := some "root-1", expiresAt := 2000 }
      { c4World with challenges := [] }
      (by decide) (by decide) (by decide)

/-- Projection invariance: applying a loot reward never touches the
`fate_caches` table. -/
theorem applyReward_caches (w : World) (rootId : String) (entry : LootEntry)
    (sourceId : Option String) :
    (applyReward w rootId entry sourceId).caches = w.caches := by
  simp only [applyReward, World.updateUser]
  split_ifs <;> rfl

/-- C8 counterexample: opening an already-opened cache fails with a 400
BadRequest (`This cache has already been opened`), not the 409 Conflict
the claim states. -/
theorem C8_counterexample :
    openCache c8OpenedWorld 0 "root-1" "cache-1" =
      Except.error (ApiError.badRequest "This cache has already been opened") ∧
    (ApiError.badRequest "This cache has already been opened").status = 400 ∧
    (400 : Nat) ≠ 409 := by
  decide

/-- Core of the single-open argument: whatever loot entry was drawn, the
post-open state holds the cache with status `opened`, so a re-open is
rejected with the 400 BadRequest. -/
theorem C8_reopen_core (w : World) (rootId cacheId : String)
    (cache : FateCache) (sel : LootEntry) (u2 : Q)
    (hfind : w.caches.find? (fun c => c.id = cacheId) = some cache)
    (howner : cache.rootId = rootId) :
    openCache
        ((World.logEvent
          { applyReward w rootId sel cache.sourceId with
            caches := (applyReward w rootId sel cache.sourceId).caches.map
              (fun (c : FateCache) =>
                if c.id = cacheId then
                  { c with status := "opened",
                           rewardType := some sel.rewardType,
                           rewardValue := some sel.rewardValue,
                           rewardName := some sel.displayName,
                           rewardRarity := some sel.rarityTier }
                else c) }
          rootId "loot.cache_opened" cache.sourceId).2) u2 rootId cacheId =
      Except.error (ApiError.badRequest "This cache has already been opened") := by
  have hfind2 : ((World.logEvent
      { applyReward w rootId sel cache.sourceId with
        caches := (applyReward w rootId sel cache.sourceId).caches.map
          (fun (c : FateCache) =>
            if c.id = cacheId then
              { c with status := "opened",
                       rewardType := some sel.rewardType,
                       rewardValue := some sel.rewardValue,
                       rewardName := some sel.displayName,
                       rewardRarity := some sel.rarityTier }
            else c) }
      rootId "loot.cache_opened" cache.sourceId).2).caches.find?
      (fun c => c.id = cacheId) =
      some ({ cache with status := "opened",
                         rewardType := some sel.rewardType,
                         rewardValue := some sel.rewardValue,
                         rewardName := some sel.displayName,
                         rewardRarity := some sel.rarityTier }) := by
    show ((applyReward w rootId sel cache.sourceId).caches.map _).find? _ = _
    rw [applyReward_caches]
    rw [find_map_update FateCache.id cacheId
      (fun c => { c with status := "opened",
                         rewardType := some sel.rewardType,
                         rewardValue := some sel.rewardValue,
                         rewardName := some sel.displayName,
                         rewardRarity := some sel.rarityTier })
      (fun a => rfl) w.caches]
    rw [hfind]
    rfl
  simp only [openCache, hfind2]
  rw [if_neg (show ¬ ({ cache with status := "opened",
                                   rewardType := some sel.rewardType,
                                   rewardValue := some sel.rewardValue,
                                   rewardName := some sel.displayName,
                                   rewardRarity := some sel.rarityTier } :
      FateCache).rootId ≠ rootId
    from by simpa using howner)]
  rw [if_pos (show ({ cache with status := "opened",
                                 rewardType := some sel.rewardType,
                                 rewardValue := some sel.rewardValue,
                                 rewardName := some sel.displayName,
                                 rewardRarity := some sel.rarityTier } :
      FateCache).status ≠ "sealed"
    from by simp)]

/-- C8 (amended): a FateCache transitions sealed → opened at most once.  A
cache that is not sealed is rejected with the 400 BadRequest
`This cache has already been opened` before any write, leaving its reward
fields unchanged; and after a successful open the cache record is
`opened`, so a second open of the same cache fails with that same error. -/
theorem C8_cache_opens_once (w : World) (u : Q) (rootId cacheId : String)
    (cache : FateCache)
    (hfind : w.caches.find? (fun c => c.id = cacheId) = some cache)
    (howner : cache.rootId = rootId) :
    (cache.status = "opened" →
      openCache w u rootId cacheId =
        Except.error (ApiError.badRequest "This cache has already been opened")) ∧
    (∀ w2 resp, openCache w u rootId cacheId = Except.ok (w2, resp) →
      ∀ u2 : Q, openCache w2 u2 rootId cacheId =
        Except.error (ApiError.badRequest "This cache has already been opened")) := by
  have hro : ¬ cache.rootId ≠ rootId := by simp [howner]
  constructor
  · intro hopen
    simp only [openCache, hfind]
    rw [if_neg hro, if_pos (by rw [hopen]; decide)]
  · intro w2 resp hok u2
    simp only [openCache, hfind] at hok
    rw [if_neg hro] at hok
    by_cases hseal : cache.status ≠ "sealed"
    · rw [if_pos hseal] at hok; exact absurd hok (by simp)
    · rw [if_neg hseal] at hok
      split at hok
      · exact absurd hok (by simp)
      · split at hok
        · exact absurd hok (by simp)
        · rw [Except.ok.injEq, Prod.mk.injEq] at hok
          obtain ⟨hw2, hresp⟩ := hok
          rw [← hw2]
          exact C8_reopen_core w rootId cacheId cache _ u2 hfind howner

/-- Witness for C8 at the opened fixture: re-opening `cache-1` is rejected
with the 400 BadRequest. -/
theorem C8_cache_opens_once_witness :
    openCache c8OpenedWorld 0 "root-1" "cache-1" =
      Except.error (ApiError.badRequest "This cache has already been opened") := by
  exact (C8_cache_opens_once c8OpenedWorld 0 "root-1" "cache-1"
    { id := "cache-1", rootId := "root-1", cacheType := "boss_kill"
      rarity := "rare", sourceId := some "src-x", trigger := "boss_kill:72"
      status := "opened", rewardType := some "xp_boost"
      rewardValue := some "50", rewardName := some "Minor XP Cache"
      rewardRarity := some "common" }
    (by decide) rfl).1 rfl

end PIK
